import Mathlib

/-!
Verification of the gesture-control engine in `src/src/App.tsx`
(RajyavardhanBhandari/neurodesk_gesture-control).

The heart of the program is the `hands.onResults` callback (lines 334-590):
a per-frame step over a single mutable engine state (React refs plus the
`useState` cells it writes).  We embed that step shallowly:

* numbers are modelled as `ℚ` (the source computes with JS doubles; every
  claim below is about the control flow and exact arithmetic structure, not
  about floating-point rounding);
* `Math.hypot`-based `distance` returns an irrational square root in
  general, so the whole development is parameterised by an arbitrary
  distance function `dist : Point → Point → ℚ`.  Every theorem holds for
  every `dist`; concrete witnesses instantiate `dist` with `axisDist`,
  which agrees with the source's Euclidean distance exactly on the
  axis-aligned landmark frames used in those witnesses;
* `getTileAtCursor` (DOM hit-testing) is an external collaborator and is
  modelled as a parameter `hitTest : Point → Option String`;
* a step returns `Option (state × events)`; `none` models a thrown
  `TypeError` (reading `.x` of a required landmark that is absent, or
  indexing an empty tile list inside a swipe), which the source does not
  catch;
* the React `useState` setters are modelled as ordinary field updates of
  the engine state, applied in source order (all of them use functional
  updates or are only written once per frame, so sequential state passing
  is faithful); the purely textual `status` message is not modelled.
-/

namespace GestureControl

/-- A 2-D point in normalized [0,1] camera space (`{ x, y }` in the source). -/
structure Point where
  x : ℚ
  y : ℚ
deriving DecidableEq

/-- The `previousPointRef` payload: last smoothed cursor plus its timestamp. -/
structure PrevPoint where
  x : ℚ
  y : ℚ
  t : ℚ
deriving DecidableEq

/-- A workspace tile (`type Tile` in the source). -/
structure Tile where
  id : String
  title : String
  detail : String
deriving DecidableEq

/-- The `GestureMode` union type of the source. -/
inductive GestureMode
  | idle
  | pointer
  | click
  | scroll
  | zoom
  | swipe
deriving DecidableEq

/-- Swipe direction (`"left" | "right"` in the source). -/
inductive SwipeDir
  | left
  | right
deriving DecidableEq

/-- Discrete gesture events raised during one frame (the spec's `GestureEvent`).
In the source these are the calls to `triggerTileClick` (pinch and dwell),
`triggerSwipeSelect` and `reorderTiles` that fire inside `onResults`. -/
inductive GestureEvent
  | click (tileId : String)
  | dwellClick (tileId : String)
  | swipeSelect (dir : SwipeDir)
  | dragReorder (fromId toId : String)
deriving DecidableEq

/-- The landmark indices `onResults` reads from `handLandmarks`.  Each is
`Option Point` because a malformed frame may be missing an index:
wrist = 0, thumbTip = 4, indexBase = 5, indexTip = 8, middleBase = 9,
middleTip = 12, pinkyBase = 17. -/
structure Landmarks where
  wrist : Option Point
  thumbTip : Option Point
  indexBase : Option Point
  indexTip : Option Point
  middleBase : Option Point
  middleTip : Option Point
  pinkyBase : Option Point
deriving DecidableEq

/-- A frame that passed the landmark guards: the index and thumb tips are
present (line 367), and the four palm landmarks dereferenced on line 381
are present.  The middle tip may still be absent (the source tolerates
that with a `1` fallback on lines 385-386). -/
structure Hand where
  wrist : Point
  indexBase : Point
  indexTip : Point
  middleBase : Point
  pinkyBase : Point
  thumbTip : Point
  middleTip : Option Point
deriving DecidableEq

/-- The complete mutable state of the engine: all refs of `onResults`
plus the `useState` cells it writes (lines 93-128). -/
structure EngineState where
  pinchState : Bool
  clickCooldown : ℚ
  pinchFrames : ℕ
  scrollFrames : ℕ
  zoomFrames : ℕ
  scrollReleaseFrames : ℕ
  zoomReleaseFrames : ℕ
  scrollMode : Bool
  zoomMode : Bool
  dragFrames : ℕ
  dragSwapCooldown : ℚ
  dragTarget : Option String
  pinchStartTime : ℚ
  zoomState : Option ℚ
  scrollAnchor : Option Point
  previousPoint : Option PrevPoint
  swipeCooldown : ℚ
  dwellId : Option String
  dwellStartedAt : ℚ
  handVisible : Bool
  pinching : Bool
  dragging : Bool
  gestureMode : GestureMode
  zoomLevel : ℚ
  scrollOffset : ℚ
  scrollOffsetX : ℚ
  dwellProgress : ℚ
  pinchMetric : ℚ
  velocityMetric : ℚ
  swipePulse : ℕ
  cursor : Point
  activeTile : Option String
  tiles : List Tile
deriving DecidableEq

/-- Source lines 78-80: `clamp(value, min, max) = Math.min(max, Math.max(min, value))`. -/
def clamp (value lo hi : ℚ) : ℚ := min hi (max lo value)

/-- Source lines 28-41: the twelve initial tiles. -/
def INITIAL_TILES : List Tile :=
  [ { id := "mail", title := "Mail", detail := "Unread: 12" },
    { id := "media", title := "Media", detail := "Now Playing" },
    { id := "tasks", title := "Tasks", detail := "3 due today" },
    { id := "notes", title := "Notes", detail := "Gesture ideas" },
    { id := "stats", title := "Stats", detail := "Realtime mode" },
    { id := "lights", title := "Lights", detail := "Studio scene" },
    { id := "code", title := "Code", detail := "Review queue" },
    { id := "boards", title := "Boards", detail := "Sprint planning" },
    { id := "docs", title := "Docs", detail := "AI spec draft" },
    { id := "music", title := "Music", detail := "Focus playlist" },
    { id := "camera", title := "Camera", detail := "Rear feed" },
    { id := "chat", title := "Chat", detail := "4 active rooms" } ]

/-- The initial engine state: the ref and `useState` initializers of lines 93-128. -/
def initialState : EngineState where
  pinchState := false
  clickCooldown := 0
  pinchFrames := 0
  scrollFrames := 0
  zoomFrames := 0
  scrollReleaseFrames := 0
  zoomReleaseFrames := 0
  scrollMode := false
  zoomMode := false
  dragFrames := 0
  dragSwapCooldown := 0
  dragTarget := none
  pinchStartTime := 0
  zoomState := none
  scrollAnchor := none
  previousPoint := none
  swipeCooldown := 0
  dwellId := none
  dwellStartedAt := 0
  handVisible := false
  pinching := false
  dragging := false
  gestureMode := GestureMode.idle
  zoomLevel := 1
  scrollOffset := 0
  scrollOffsetX := 0
  dwellProgress := 0
  pinchMetric := 0
  velocityMetric := 0
  swipePulse := 0
  cursor := { x := 1/2, y := 1/2 }
  activeTile := none
  tiles := INITIAL_TILES

/-- Source lines 199-216: `reorderTiles(fromId, toId)` removes the from-tile
and reinserts it at the to-tile's original index (`splice` semantics).
The inner `none` branch of the lookup is unreachable because `findIdx?`
only returns indices inside the list. -/
def reorderTiles (fromId toId : String) (current : List Tile) : List Tile :=
  if fromId = toId then current
  else
    match current.findIdx? (fun t => t.id == fromId),
          current.findIdx? (fun t => t.id == toId) with
    | some fromIndex, some toIndex =>
      match current[fromIndex]? with
      | some moved => (current.eraseIdx fromIndex).insertIdx toIndex moved
      | none => current
    | _, _ => current

/-- Source lines 218-230, the index arithmetic of `triggerSwipeSelect`:
`findIndex` yields -1 when `activeTile` is null or absent, `safeIndex`
falls back to 0, and the next index is `(safeIndex ± 1 + n) % n`.
Returns the new `activeTile`; `none` models the `TypeError` the source
would throw on an empty tile list (`tiles[NaN].id`). -/
def triggerSwipeSelect (tiles : List Tile) (activeTile : Option String)
    (dir : SwipeDir) : Option (Option String) :=
  let currentIndex : ℤ :=
    match activeTile with
    | some a =>
      match tiles.findIdx? (fun t => t.id == a) with
      | some i => (i : ℤ)
      | none => -1
    | none => -1
  let safeIndex : ℤ := if currentIndex = -1 then 0 else currentIndex
  let delta : ℤ := match dir with
    | SwipeDir.right => 1
    | SwipeDir.left => -1
  let nextIndex : ℤ := (safeIndex + delta + (tiles.length : ℤ)) % (tiles.length : ℤ)
  match tiles[nextIndex.toNat]? with
  | some tile => some (some tile.id)
  | none => none

/-- Source lines 372-375: the mirrored, per-coordinate clamped raw cursor. -/
def rawCursor (h : Hand) : Point :=
  { x := clamp (1 - h.indexTip.x) 0 1, y := clamp h.indexTip.y 0 1 }

/-- Source line 381: `palmScale = max(distance(indexBase, pinkyBase),
distance(wrist, handLandmarks[9]), 0.08)`. -/
def Hand.palmScale (dist : Point → Point → ℚ) (h : Hand) : ℚ :=
  max (max (dist h.indexBase h.pinkyBase) (dist h.wrist h.middleBase)) 0.08

/-- Source line 384: normalized thumb-index distance. -/
def Hand.pinchDistance (dist : Point → Point → ℚ) (h : Hand) : ℚ :=
  dist h.indexTip h.thumbTip / h.palmScale dist

/-- Source line 385: normalized thumb-middle distance, defaulting to 1 when
the middle tip is missing. -/
def Hand.middleThumbDistance (dist : Point → Point → ℚ) (h : Hand) : ℚ :=
  match h.middleTip with
  | some m => dist m h.thumbTip / h.palmScale dist
  | none => 1

/-- Source line 386: normalized index-middle distance, defaulting to 1 when
the middle tip is missing. -/
def Hand.indexMiddleDistance (dist : Point → Point → ℚ) (h : Hand) : ℚ :=
  match h.middleTip with
  | some m => dist h.indexTip m / h.palmScale dist
  | none => 1

/-- Source line 390: instantaneous cursor velocity (0 on the first frame). -/
def velocityOf (dist : Point → Point → ℚ) (now : ℚ) :
    Option PrevPoint → Hand → ℚ
  | some p, h => dist (rawCursor h) { x := p.x, y := p.y } / max (now - p.t) 1
  | none, _ => 0

/-- Source line 393: the velocity-adaptive smoothing factor. -/
def smoothOf (dist : Point → Point → ℚ) (now : ℚ) (prev : Option PrevPoint)
    (h : Hand) : ℚ :=
  clamp (0.22 + velocityOf dist now prev h * 1.8) 0.22 0.56

/-- Source lines 394-399: the smoothed cursor (`stableCursor`). -/
def stableCursorOf (dist : Point → Point → ℚ) (now : ℚ)
    (prev : Option PrevPoint) (h : Hand) : Point :=
  match prev with
  | some p =>
    { x := p.x * (1 - smoothOf dist now prev h) + (rawCursor h).x * smoothOf dist now prev h,
      y := p.y * (1 - smoothOf dist now prev h) + (rawCursor h).y * smoothOf dist now prev h }
  | none => rawCursor h

/-- Result of the zoom latch block, source lines 408-428. -/
structure ZoomLatchOut where
  zoomMode : Bool
  zoomFrames : ℕ
  zoomReleaseFrames : ℕ
  zoomState : Option ℚ
deriving DecidableEq

/-- Source lines 408-428: the zoom mode latch.  While active, a frame whose
hold signal (`middleThumbDistance < 0.34 && normalizedIndexMiddle > 0.2`)
is false increments the release counter, and the mode drops once that
counter exceeds 5; otherwise the candidate signal
(`middleThumbDistance < 0.24 && normalizedIndexMiddle > 0.25`) arms the
mode after reaching 3 consecutive frames, but only while scroll mode is off. -/
def zoomLatchStep (s : EngineState)
    (normalizedIndexMiddle middleThumbDistance : ℚ) : ZoomLatchOut :=
  if s.zoomMode then
    let zr := if middleThumbDistance < 0.34 ∧ normalizedIndexMiddle > 0.2 then 0
              else s.zoomReleaseFrames + 1
    if zr > 5 then
      { zoomMode := false, zoomFrames := s.zoomFrames, zoomReleaseFrames := 0,
        zoomState := none }
    else
      { zoomMode := true, zoomFrames := s.zoomFrames, zoomReleaseFrames := zr,
        zoomState := s.zoomState }
  else if s.scrollMode = false ∧ middleThumbDistance < 0.24 ∧ normalizedIndexMiddle > 0.25 then
    let zf := s.zoomFrames + 1
    if zf ≥ 3 then
      { zoomMode := true, zoomFrames := 0, zoomReleaseFrames := s.zoomReleaseFrames,
        zoomState := s.zoomState }
    else
      { zoomMode := false, zoomFrames := zf, zoomReleaseFrames := s.zoomReleaseFrames,
        zoomState := s.zoomState }
  else
    { zoomMode := false, zoomFrames := 0, zoomReleaseFrames := s.zoomReleaseFrames,
      zoomState := s.zoomState }

/-- Result of the scroll latch block, source lines 430-450. -/
structure ScrollLatchOut where
  scrollMode : Bool
  scrollFrames : ℕ
  scrollReleaseFrames : ℕ
  scrollAnchor : Option Point
deriving DecidableEq

/-- Source lines 430-450: the scroll mode latch, mirror image of the zoom
latch.  The arming guard on line 442 reads the zoom flag already updated
this frame (`zoomMode1`). -/
def scrollLatchStep (s : EngineState) (zoomMode1 : Bool)
    (normalizedIndexMiddle middleThumbDistance : ℚ) : ScrollLatchOut :=
  if s.scrollMode then
    let sr := if normalizedIndexMiddle < 0.3 ∧ middleThumbDistance > 0.28 then 0
              else s.scrollReleaseFrames + 1
    if sr > 5 then
      { scrollMode := false, scrollFrames := s.scrollFrames, scrollReleaseFrames := 0,
        scrollAnchor := none }
    else
      { scrollMode := true, scrollFrames := s.scrollFrames, scrollReleaseFrames := sr,
        scrollAnchor := s.scrollAnchor }
  else if zoomMode1 = false ∧ normalizedIndexMiddle < 0.22 ∧ middleThumbDistance > 0.34 then
    let sf := s.scrollFrames + 1
    if sf ≥ 3 then
      { scrollMode := true, scrollFrames := 0, scrollReleaseFrames := s.scrollReleaseFrames,
        scrollAnchor := s.scrollAnchor }
    else
      { scrollMode := false, scrollFrames := sf, scrollReleaseFrames := s.scrollReleaseFrames,
        scrollAnchor := s.scrollAnchor }
  else
    { scrollMode := false, scrollFrames := 0, scrollReleaseFrames := s.scrollReleaseFrames,
      scrollAnchor := s.scrollAnchor }

/-- Zoom effect result, source lines 470-481. -/
structure ZoomApplyOut where
  zoomState : Option ℚ
  zoomLevel : ℚ
deriving DecidableEq

/-- Source lines 470-481: with no anchor, record the current distance;
otherwise `delta = current - anchor`, and if `|delta| > 0.0012` the zoom
level becomes `clamp(current + delta * 3.6, 0.45, 2.6)` (an additive
update), after which the anchor is low-pass filtered
(`anchor * 0.45 + current * 0.55`). -/
def zoomApply (middleThumbDistance zoomLevel : ℚ) : Option ℚ → ZoomApplyOut
  | none => { zoomState := some middleThumbDistance, zoomLevel := zoomLevel }
  | some lastDistance =>
    let delta := middleThumbDistance - lastDistance
    { zoomState := some (lastDistance * 0.45 + middleThumbDistance * 0.55),
      zoomLevel := if |delta| > 0.0012 then clamp (zoomLevel + delta * 3.6) 0.45 2.6
                   else zoomLevel }

/-- Scroll effect result, source lines 494-509. -/
structure ScrollApplyOut where
  scrollAnchor : Option Point
  scrollOffset : ℚ
  scrollOffsetX : ℚ
deriving DecidableEq

/-- Source lines 494-509: with no anchor, record the index/middle midpoint;
otherwise accumulate the eased deltas into both scroll offsets and low-pass
filter the anchor (`0.65` old / `0.35` new). -/
def scrollApply (indexTip middleTipP : Point) (anchor : Option Point)
    (scrollOffset scrollOffsetX : ℚ) : ScrollApplyOut :=
  let midpointY := (indexTip.y + middleTipP.y) * 0.5
  let midpointX := (indexTip.x + middleTipP.x) * 0.5
  match anchor with
  | none =>
    { scrollAnchor := some { x := midpointX, y := midpointY },
      scrollOffset := scrollOffset, scrollOffsetX := scrollOffsetX }
  | some a =>
    let deltaY := midpointY - a.y
    let deltaX := a.x - midpointX
    let easedStepY := clamp (deltaY * 180) (-22) 22
    let easedStepX := clamp (deltaX * 180) (-22) 22
    { scrollAnchor := some { x := a.x * 0.65 + midpointX * 0.35,
                             y := a.y * 0.65 + midpointY * 0.35 },
      scrollOffset := clamp (scrollOffset + easedStepY) (-360) 360,
      scrollOffsetX := clamp (scrollOffsetX + easedStepX) (-360) 360 }

/-- Drag-trigger result, source lines 527-537. -/
structure DragOut where
  dragActive : Bool
  tiles : List Tile
  dragTarget : Option String
  dragSwapCooldown : ℚ
  events : List GestureEvent
deriving DecidableEq

/-- Source lines 527-537: once the drag counter exceeds 12 with a selected
tile, hovering a different tile (also different from the previous drag
target) after a 280 ms cooldown reorders the tiles. -/
def dragTrigger (hitTest : Point → Option String) (cursor : Point)
    (activeTile : Option String) (dragFrames : ℕ) (dragTarget : Option String)
    (now dragSwapCooldown : ℚ) (tiles : List Tile) : DragOut :=
  match activeTile with
  | some active =>
    if dragFrames > 12 then
      match hitTest cursor with
      | some hoverTile =>
        if hoverTile ≠ active ∧ some hoverTile ≠ dragTarget ∧ now - dragSwapCooldown > 280 then
          { dragActive := true, tiles := reorderTiles active hoverTile tiles,
            dragTarget := some hoverTile, dragSwapCooldown := now,
            events := [GestureEvent.dragReorder active hoverTile] }
        else
          { dragActive := true, tiles := tiles, dragTarget := dragTarget,
            dragSwapCooldown := dragSwapCooldown, events := [] }
      | none =>
        { dragActive := true, tiles := tiles, dragTarget := dragTarget,
          dragSwapCooldown := dragSwapCooldown, events := [] }
    else
      { dragActive := false, tiles := tiles, dragTarget := dragTarget,
        dragSwapCooldown := dragSwapCooldown, events := [] }
  | none =>
    { dragActive := false, tiles := tiles, dragTarget := dragTarget,
      dragSwapCooldown := dragSwapCooldown, events := [] }

/-- Swipe dispatch result (lines 561-564 plus `triggerSwipeSelect`). -/
structure SwipeOut where
  fired : Option SwipeDir
  activeTile : Option String
deriving DecidableEq

/-- Applies `triggerSwipeSelect` when a swipe was detected this frame;
`none` propagates the modelled `TypeError` of an empty tile list. -/
def swipePhase (tiles : List Tile) (activeTile : Option String) :
    Option SwipeDir → Option SwipeOut
  | some dir =>
    (triggerSwipeSelect tiles activeTile dir).map
      fun a => { fired := some dir, activeTile := a }
  | none => some { fired := none, activeTile := activeTile }

/-- Dwell block result, source lines 567-585. -/
structure DwellOut where
  dwellId : Option String
  dwellStartedAt : ℚ
  dwellProgress : ℚ
  activeTile : Option String
  clickCooldown : ℚ
  events : List GestureEvent
deriving DecidableEq

/-- Source lines 567-585: hovering a new tile restarts the dwell timer;
staying on the same tile grows `progress = clamp((now - startedAt)/980, 0, 1)`,
and at full progress with a 600 ms click cooldown a dwell click fires,
toggling the tile and restarting the timer. -/
def dwellPhase (hoveredTile : Option String) (now : ℚ) (dwellId : Option String)
    (dwellStartedAt : ℚ) (activeTile : Option String) (clickCooldown : ℚ) : DwellOut :=
  match hoveredTile with
  | some hovered =>
    if dwellId ≠ some hovered then
      { dwellId := some hovered, dwellStartedAt := now, dwellProgress := 0,
        activeTile := activeTile, clickCooldown := clickCooldown, events := [] }
    else
      let progress := clamp ((now - dwellStartedAt) / 980) 0 1
      if progress ≥ 1 ∧ now - clickCooldown > 600 then
        { dwellId := some hovered, dwellStartedAt := now, dwellProgress := 0,
          activeTile := if activeTile = some hovered then none else some hovered,
          clickCooldown := now, events := [GestureEvent.dwellClick hovered] }
      else
        { dwellId := dwellId, dwellStartedAt := dwellStartedAt, dwellProgress := progress,
          activeTile := activeTile, clickCooldown := clickCooldown, events := [] }
  | none =>
    { dwellId := none, dwellStartedAt := 0, dwellProgress := 0,
      activeTile := activeTile, clickCooldown := clickCooldown, events := [] }

/-- One processed frame with all guarded landmarks present: the body of
`onResults` from line 371 to line 590, in source order. -/
def stepFull (dist : Point → Point → ℚ) (hitTest : Point → Option String)
    (now : ℚ) (s : EngineState) (h : Hand) :
    Option (EngineState × List GestureEvent) :=
  let pinchDistance := h.pinchDistance dist
  let middleThumbDistance := h.middleThumbDistance dist
  let normalizedIndexMiddle := h.indexMiddleDistance dist
  let dt : ℚ := match s.previousPoint with
    | some p => now - p.t
    | none => 16
  let velocityMetric := clamp (velocityOf dist now s.previousPoint h * 900) 0 1
  let stableCursor := stableCursorOf dist now s.previousPoint h
  let zl := zoomLatchStep s normalizedIndexMiddle middleThumbDistance
  let sl := scrollLatchStep s zl.zoomMode normalizedIndexMiddle middleThumbDistance
  let zoomGesture := zl.zoomMode
  let scrollGesture := sl.scrollMode
  let nextPinch : Bool :=
    if pinchDistance < (if s.pinchState then (0.42 : ℚ) else 0.34)
        ∧ scrollGesture = false ∧ zoomGesture = false then true else false
  let wasPinching := s.pinchState
  let pinchFrames1 := if nextPinch then s.pinchFrames + 1 else 0
  let pinchMetric := clamp (1 - pinchDistance / 0.65) 0 1
  let pinchStartTime1 := if nextPinch ∧ wasPinching = false then now else s.pinchStartTime
  let za := if zoomGesture then zoomApply middleThumbDistance s.zoomLevel zl.zoomState
            else { zoomState := none, zoomLevel := s.zoomLevel : ZoomApplyOut }
  let gestureMode1 := if zoomGesture then GestureMode.zoom else s.gestureMode
  let scrollAnchor2 := if zoomGesture then none else sl.scrollAnchor
  let scrollMode2 := if zoomGesture then false else sl.scrollMode
  let dragging1 := if zoomGesture then false else s.dragging
  let dragFrames1 := if zoomGesture then 0 else s.dragFrames
  let dwellProgress1 := if zoomGesture then 0 else s.dwellProgress
  let scrollEff : Bool := scrollGesture && h.middleTip.isSome
  let sa := match h.middleTip with
    | some m =>
      if scrollGesture then scrollApply h.indexTip m scrollAnchor2 s.scrollOffset s.scrollOffsetX
      else { scrollAnchor := none, scrollOffset := s.scrollOffset,
             scrollOffsetX := s.scrollOffsetX : ScrollApplyOut }
    | none =>
      { scrollAnchor := none, scrollOffset := s.scrollOffset,
        scrollOffsetX := s.scrollOffsetX : ScrollApplyOut }
  let gestureMode2 := if scrollEff then GestureMode.scroll else gestureMode1
  let zoomMode2 := if scrollEff then false else zl.zoomMode
  let dragging2 := if scrollEff then false else dragging1
  let dragFrames2 := if scrollEff then 0 else dragFrames1
  let dwellProgress2 := if scrollEff then 0 else dwellProgress1
  let dragFrames3 := if nextPinch ∧ zoomGesture = false ∧ scrollGesture = false
                     then dragFrames2 + 1 else 0
  let dragTarget1 := if nextPinch ∧ zoomGesture = false ∧ scrollGesture = false
                     then s.dragTarget else none
  let dragging3 := if nextPinch ∧ zoomGesture = false ∧ scrollGesture = false
                   then dragging2 else false
  let dOut := dragTrigger hitTest stableCursor s.activeTile dragFrames3 dragTarget1
                now s.dragSwapCooldown s.tiles
  let dragging4 := if dOut.dragActive then true else dragging3
  let gestureMode3 := if dOut.dragActive then GestureMode.pointer else gestureMode2
  let clickFires : Bool :=
    if nextPinch = false ∧ wasPinching = true
        ∧ now - pinchStartTime1 < 280 ∧ scrollGesture = false ∧ zoomGesture = false
        ∧ now - s.clickCooldown > 420 then true else false
  let gestureMode4 := if clickFires then GestureMode.click else gestureMode3
  let clickCooldown1 := if clickFires then now else s.clickCooldown
  let dwellProgress3 := if clickFires then 0 else dwellProgress2
  let activeTile1 :=
    if clickFires then
      match hitTest stableCursor with
      | some tileId => if s.activeTile = some tileId then none else some tileId
      | none => s.activeTile
    else s.activeTile
  let clickEvents :=
    if clickFires then
      match hitTest stableCursor with
      | some tileId => [GestureEvent.click tileId]
      | none => []
    else []
  let pointerActive : Bool :=
    if nextPinch = false ∧ scrollGesture = false ∧ zoomGesture = false then true else false
  let gestureMode5 := if pointerActive then GestureMode.pointer else gestureMode4
  let swipeDir : Option SwipeDir :=
    if pointerActive then
      match s.previousPoint with
      | some p =>
        if dt < 135 ∧ |stableCursor.x - p.x| > 0.22 ∧ now - s.swipeCooldown > 650 then
          some (if stableCursor.x - p.x > 0 then SwipeDir.right else SwipeDir.left)
        else none
      | none => none
    else none
  match swipePhase s.tiles activeTile1 swipeDir with
  | none => none
  | some sw =>
    let swipeCooldown1 := if sw.fired.isSome then now else s.swipeCooldown
    let swipePulse1 := if sw.fired.isSome then s.swipePulse + 1 else s.swipePulse
    let gestureMode6 := if sw.fired.isSome then GestureMode.swipe else gestureMode5
    let swipeEvents := match sw.fired with
      | some dir => [GestureEvent.swipeSelect dir]
      | none => []
    let dw :=
      if pointerActive then
        dwellPhase (hitTest stableCursor) now s.dwellId s.dwellStartedAt sw.activeTile clickCooldown1
      else
        { dwellId := s.dwellId, dwellStartedAt := s.dwellStartedAt,
          dwellProgress := dwellProgress3, activeTile := sw.activeTile,
          clickCooldown := clickCooldown1, events := [] : DwellOut }
    some ({ pinchState := nextPinch
            clickCooldown := dw.clickCooldown
            pinchFrames := pinchFrames1
            scrollFrames := sl.scrollFrames
            zoomFrames := zl.zoomFrames
            scrollReleaseFrames := sl.scrollReleaseFrames
            zoomReleaseFrames := zl.zoomReleaseFrames
            scrollMode := scrollMode2
            zoomMode := zoomMode2
            dragFrames := dragFrames3
            dragSwapCooldown := dOut.dragSwapCooldown
            dragTarget := dOut.dragTarget
            pinchStartTime := pinchStartTime1
            zoomState := za.zoomState
            scrollAnchor := sa.scrollAnchor
            previousPoint := some { x := stableCursor.x, y := stableCursor.y, t := now }
            swipeCooldown := swipeCooldown1
            dwellId := dw.dwellId
            dwellStartedAt := dw.dwellStartedAt
            handVisible := true
            pinching := nextPinch
            dragging := dragging4
            gestureMode := gestureMode6
            zoomLevel := za.zoomLevel
            scrollOffset := sa.scrollOffset
            scrollOffsetX := sa.scrollOffsetX
            dwellProgress := dw.dwellProgress
            pinchMetric := pinchMetric
            velocityMetric := velocityMetric
            swipePulse := swipePulse1
            cursor := stableCursor
            activeTile := dw.activeTile
            tiles := dOut.tiles },
          dOut.events ++ clickEvents ++ swipeEvents ++ dw.events)

/-- Source lines 338-362: the full reset performed when a frame reports no
hand.  The cooldown timestamps (`click`, `swipe`, `dragSwap`), the zoom
level, the scroll offsets, the cursor, the active tile, the tiles and the
pinch metric are not touched by this branch. -/
def resetState (s : EngineState) : EngineState :=
  { s with
    handVisible := false
    pinching := false
    dragging := false
    gestureMode := GestureMode.idle
    dwellProgress := 0
    velocityMetric := 0
    pinchState := false
    pinchFrames := 0
    scrollFrames := 0
    zoomFrames := 0
    scrollReleaseFrames := 0
    zoomReleaseFrames := 0
    scrollMode := false
    zoomMode := false
    dragFrames := 0
    dragTarget := none
    pinchStartTime := 0
    zoomState := none
    scrollAnchor := none
    previousPoint := none
    dwellId := none
    dwellStartedAt := 0 }

/-- One invocation of the `onResults` callback (source lines 334-590).
`none` landmarks is the no-hand reset; a present frame missing the index
or thumb tip returns on line 367 before any state is written; a frame
missing one of the four palm landmarks throws a `TypeError` on line 381
(modelled as `none`). -/
def step (dist : Point → Point → ℚ) (hitTest : Point → Option String)
    (now : ℚ) (s : EngineState) :
    Option Landmarks → Option (EngineState × List GestureEvent)
  | none => some (resetState s, [])
  | some lm =>
    match lm.indexTip, lm.thumbTip with
    | some indexTip, some thumbTip =>
      match lm.wrist, lm.indexBase, lm.middleBase, lm.pinkyBase with
      | some wrist, some indexBase, some middleBase, some pinkyBase =>
        stepFull dist hitTest now s
          { wrist := wrist, indexBase := indexBase, indexTip := indexTip,
            middleBase := middleBase, pinkyBase := pinkyBase,
            thumbTip := thumbTip, middleTip := lm.middleTip }
      | _, _, _, _ => none
    | _, _ => some (s, [])

/-- Folds `step` over a timed frame sequence.  A faulting frame (a frame on
which the source would throw) leaves the state unchanged. -/
def run (dist : Point → Point → ℚ) (hitTest : Point → Option String) :
    EngineState → List (ℚ × Option Landmarks) → EngineState
  | s, [] => s
  | s, (now, frame) :: rest =>
    match step dist hitTest now s frame with
    | some (s', _) => run dist hitTest s' rest
    | none => run dist hitTest s rest

/-! ### Concrete inputs for witnesses and counterexamples -/

/-- Distance function used by all concrete witnesses and counterexamples:
the axis-aligned (Chebyshev) distance.  On every pair of points that share
a coordinate it coincides with the source's Euclidean `Math.hypot`
distance, and the concrete frames below only ever measure such pairs, so
these inputs evaluate the source's arithmetic exactly. -/
def axisDist (a b : Point) : ℚ := max |a.x - b.x| |a.y - b.y|

/-- Hit-test collaborator that never reports a tile under the cursor. -/
def hitTestNone : Point → Option String := fun _ => none

/-- Hit-test collaborator that always reports the `mail` tile. -/
def hitTestMail : Point → Option String := fun _ => some "mail"

/-- A frame whose signals satisfy the zoom hold signal (`mtd = 1/4`,
`nim = 1`) but neither start signal, with palm scale `2/5`. -/
def handZoomHold : Hand where
  wrist := { x := 1/2, y := 9/10 }
  indexBase := { x := 3/10, y := 1/2 }
  indexTip := { x := 1/2, y := 3/5 }
  middleBase := { x := 1/2, y := 1/2 }
  pinkyBase := { x := 7/10, y := 1/2 }
  thumbTip := { x := 1/2, y := 3/10 }
  middleTip := some { x := 1/2, y := 1/5 }

/-- A frame satisfying no start or zoom-hold signal (`mtd = 3/2`,
`nim = 1/4`, pinch distance `5/4`), with palm scale `2/5`. -/
def handNeutral : Hand where
  wrist := { x := 1/2, y := 9/10 }
  indexBase := { x := 3/10, y := 1/2 }
  indexTip := { x := 1/2, y := 3/5 }
  middleBase := { x := 1/2, y := 1/2 }
  pinkyBase := { x := 7/10, y := 1/2 }
  thumbTip := { x := 1/2, y := 1/10 }
  middleTip := some { x := 1/2, y := 7/10 }

/-- `handNeutral` as a raw landmark frame (all guarded indices present). -/
def landmarksNeutral : Landmarks where
  wrist := some { x := 1/2, y := 9/10 }
  thumbTip := some { x := 1/2, y := 1/10 }
  indexBase := some { x := 3/10, y := 1/2 }
  indexTip := some { x := 1/2, y := 3/5 }
  middleBase := some { x := 1/2, y := 1/2 }
  middleTip := some { x := 1/2, y := 7/10 }
  pinkyBase := some { x := 7/10, y := 1/2 }

/-- A landmark frame missing only the middle tip (index 12). -/
def landmarksNoMiddle : Landmarks where
  wrist := some { x := 1/2, y := 9/10 }
  thumbTip := some { x := 1/2, y := 1/10 }
  indexBase := some { x := 3/10, y := 1/2 }
  indexTip := some { x := 1/2, y := 3/5 }
  middleBase := some { x := 1/2, y := 1/2 }
  middleTip := none
  pinkyBase := some { x := 7/10, y := 1/2 }

/-- A landmark frame missing the index tip (index 8). -/
def landmarksNoIndexTip : Landmarks where
  wrist := some { x := 1/2, y := 9/10 }
  thumbTip := some { x := 1/2, y := 1/10 }
  indexBase := some { x := 3/10, y := 1/2 }
  indexTip := none
  middleBase := some { x := 1/2, y := 1/2 }
  middleTip := some { x := 1/2, y := 7/10 }
  pinkyBase := some { x := 7/10, y := 1/2 }

/-- A landmark frame missing the wrist (index 0). -/
def landmarksNoWrist : Landmarks where
  wrist := none
  thumbTip := some { x := 1/2, y := 1/10 }
  indexBase := some { x := 3/10, y := 1/2 }
  indexTip := some { x := 1/2, y := 3/5 }
  middleBase := some { x := 1/2, y := 1/2 }
  middleTip := some { x := 1/2, y := 7/10 }
  pinkyBase := some { x := 7/10, y := 1/2 }

/-- A fast-swipe frame: index tip far left so the mirrored cursor jumps
right (`nim = 1/2`, `mtd = 7/4`, pinch distance `5/4`). -/
def handSwipe : Hand where
  wrist := { x := 1/2, y := 9/10 }
  indexBase := { x := 3/10, y := 1/2 }
  indexTip := { x := 1/100, y := 3/5 }
  middleBase := { x := 1/2, y := 1/2 }
  pinkyBase := { x := 7/10, y := 1/2 }
  thumbTip := { x := 1/100, y := 1/10 }
  middleTip := some { x := 1/100, y := 4/5 }

/-- State with zoom mode latched, anchor `1/2` and zoom level `2`. -/
def stateZoomActive : EngineState :=
  { initialState with zoomMode := true, zoomState := some (1/2), zoomLevel := 2 }

/-- State with zoom mode latched and release counter zero. -/
def stateZoomRelease : EngineState :=
  { initialState with zoomMode := true, zoomState := some 1 }

/-- Five `handNeutral` frames: the zoom hold signal is false on each. -/
def framesRelease5 : List (ℚ × Option Landmarks) :=
  [(0, some landmarksNeutral), (20, some landmarksNeutral), (40, some landmarksNeutral),
   (60, some landmarksNeutral), (80, some landmarksNeutral)]

/-- Zoom-active state with a dwell target remembered from pointer mode. -/
def stateDwellZoom : EngineState :=
  { initialState with
    zoomMode := true
    zoomState := some 1
    dwellId := some "mail"
    dwellStartedAt := 100 }

/-- Zoom-active state carrying in-progress pinch, drag and dwell data. -/
def statePinchDragDwell : EngineState :=
  { initialState with
    zoomMode := true
    zoomState := some 1
    pinchState := true
    pinchFrames := 7
    dragFrames := 5
    dragTarget := some "mail"
    dragging := true
    dwellId := some "notes"
    dwellStartedAt := 123 }

/-- State in a pinch that started at time 800 (for a 200 ms tap at 1000). -/
def statePinch : EngineState :=
  { initialState with pinchState := true, pinchStartTime := 800 }

/-- State in a pinch that started at time 700 (for a 300 ms hold at 1000). -/
def statePinchLong : EngineState :=
  { initialState with pinchState := true, pinchStartTime := 700 }

/-- State with a previous cursor point inside the unit square. -/
def statePrev : EngineState :=
  { initialState with previousPoint := some { x := 1/2, y := 1/10, t := 900 } }

/-- State one frame before a fast right swipe, with the `mail` tile active. -/
def stateSwipe : EngineState :=
  { initialState with
    previousPoint := some { x := 1/10, y := 3/5, t := 999 }
    activeTile := some "mail" }

/-! ### Helper lemmas -/

theorem clamp_le_right (v lo hi : ℚ) : clamp v lo hi ≤ hi := by
  simp only [clamp]
  exact min_le_left hi (max lo v)

theorem left_le_clamp {v lo hi : ℚ} (h : lo ≤ hi) : lo ≤ clamp v lo hi :=
  le_min h (le_max_left lo v)

theorem eq_some_getD {α : Type} {o : Option α} (d : α) (h : o.isSome = true) :
    o = some (o.getD d) := by
  cases o
  · simp at h
  · rfl

theorem cons_eraseIdx_perm :
    ∀ (l : List Tile) (i : ℕ) (x : Tile), l[i]? = some x →
      (x :: l.eraseIdx i).Perm l := by
  intro l
  induction l with
  | nil => intro i x hx; simp at hx
  | cons a tl ih =>
    intro i x hx
    cases i with
    | zero =>
      simp only [List.getElem?_cons_zero, Option.some.injEq] at hx
      subst hx
      simp [List.eraseIdx]
    | succ i =>
      simp only [List.getElem?_cons_succ] at hx
      exact (List.Perm.swap a x (tl.eraseIdx i)).trans ((ih i x hx).cons a)

theorem insertIdx_perm_cons :
    ∀ (i : ℕ) (l : List Tile) (x : Tile), i ≤ l.length →
      (l.insertIdx i x).Perm (x :: l) := by
  intro i
  induction i with
  | zero => intro l x _; simp [List.insertIdx]
  | succ i ih =>
    intro l x hle
    cases l with
    | nil => simp at hle
    | cons a tl =>
      simp only [List.length_cons, Nat.succ_le_succ_iff] at hle
      exact ((ih tl x hle).cons a).trans (List.Perm.swap x a tl)

theorem triggerSwipeSelect_isSome {tiles : List Tile} {a : Option String}
    {dir : SwipeDir} (h : tiles ≠ []) :
    (triggerSwipeSelect tiles a dir).isSome = true := by
  have hn : 0 < tiles.length := List.length_pos.mpr h
  have key : ∀ (safeIndex delta : ℤ), 0 ≤ safeIndex → delta = 1 ∨ delta = -1 →
      ((safeIndex + delta + (tiles.length : ℤ)) % (tiles.length : ℤ)).toNat
        < tiles.length := by
    intro si d hsi hd
    have hne : (tiles.length : ℤ) ≠ 0 := by omega
    have h1 := Int.emod_nonneg (si + d + tiles.length) hne
    have h2 := Int.emod_lt_of_pos (si + d + tiles.length)
      (by omega : (0 : ℤ) < tiles.length)
    omega
  have getSome : ∀ i dlt : ℤ, 0 ≤ i → dlt = 1 ∨ dlt = -1 →
      (match tiles[(((i + dlt + (tiles.length : ℤ)) % (tiles.length : ℤ))).toNat]? with
        | some tile => some (some tile.id)
        | none => none).isSome = true := by
    intro i dlt hi hdlt
    have hlt := key i dlt hi hdlt
    rw [List.getElem?_eq_getElem hlt]
    rfl
  simp only [triggerSwipeSelect]
  cases a with
  | none =>
    rw [if_pos rfl]
    cases dir
    · exact getSome 0 (-1) le_rfl (Or.inr rfl)
    · exact getSome 0 1 le_rfl (Or.inl rfl)
  | some aid =>
    cases hidx : tiles.findIdx? (fun t => t.id == aid) with
    | none =>
      simp only [hidx]
      rw [if_pos trivial]
      cases dir
      · exact getSome 0 (-1) le_rfl (Or.inr rfl)
      · exact getSome 0 1 le_rfl (Or.inl rfl)
    | some i =>
      have hne : ((i : ℤ)) ≠ -1 := by omega
      simp only [hidx]
      rw [if_neg hne]
      cases dir
      · exact getSome i (-1) (by omega) (Or.inr rfl)
      · exact getSome i 1 (by omega) (Or.inl rfl)

theorem swipePhase_isSome {tiles : List Tile} {a : Option String}
    {sd : Option SwipeDir} (h : tiles ≠ []) :
    (swipePhase tiles a sd).isSome = true := by
  cases sd with
  | none => rfl
  | some dir => simp [swipePhase, triggerSwipeSelect_isSome h]

theorem stepFull_isSome {dist : Point → Point → ℚ} {ht : Point → Option String}
    {now : ℚ} {s : EngineState} {h : Hand} (htiles : s.tiles ≠ []) :
    (stepFull dist ht now s h).isSome = true := by
  simp only [stepFull]
  split
  · rename_i heq
    exact absurd heq (Option.isSome_iff_ne_none.mp (swipePhase_isSome htiles))
  · rfl

theorem zoomLatchStep_stays_off {s : EngineState} {nim mtd : ℚ}
    (hz : s.zoomMode = false) (hzf : s.zoomFrames = 0) :
    (zoomLatchStep s nim mtd).zoomMode = false := by
  unfold zoomLatchStep
  rw [hz]
  simp only [Bool.false_eq_true, if_false]
  split
  · rw [hzf]
    norm_num
  · rfl

theorem scrollLatchStep_stays_off {s : EngineState} {zm : Bool} {nim mtd : ℚ}
    (hs : s.scrollMode = false) (hsf : s.scrollFrames = 0) :
    (scrollLatchStep s zm nim mtd).scrollMode = false := by
  unfold scrollLatchStep
  rw [hs]
  simp only [Bool.false_eq_true, if_false]
  split
  · rw [hsf]
    norm_num
  · rfl

theorem stepFull_modes_off {dist : Point → Point → ℚ} {ht : Point → Option String}
    {now : ℚ} {s : EngineState} {h : Hand}
    (hz : s.zoomMode = false) (hs : s.scrollMode = false)
    (hzf : s.zoomFrames = 0) (hsf : s.scrollFrames = 0)
    (hprev : s.previousPoint = none) :
    (stepFull dist ht now s h).map (fun r => (r.1.scrollMode, r.1.zoomMode))
      = some (false, false) := by
  have hzl : (zoomLatchStep s (h.indexMiddleDistance dist) (h.middleThumbDistance dist)).zoomMode
      = false := zoomLatchStep_stays_off hz hzf
  have hsl : ∀ zm : Bool,
      (scrollLatchStep s zm (h.indexMiddleDistance dist) (h.middleThumbDistance dist)).scrollMode
        = false := fun _ => scrollLatchStep_stays_off hs hsf
  simp [stepFull, hprev, hzl, hsl, swipePhase]

theorem zoomLatchStep_hold {s : EngineState} {nim mtd : ℚ} (hz : s.zoomMode = true)
    (hh : mtd < 0.34 ∧ nim > 0.2) :
    zoomLatchStep s nim mtd =
      { zoomMode := true, zoomFrames := s.zoomFrames, zoomReleaseFrames := 0,
        zoomState := s.zoomState } := by
  simp [zoomLatchStep, hz, hh.1, hh.2]

theorem zoomLatchStep_release {s : EngineState} {nim mtd : ℚ} (hz : s.zoomMode = true)
    (hh : ¬(mtd < 0.34 ∧ nim > 0.2)) :
    zoomLatchStep s nim mtd =
      if s.zoomReleaseFrames + 1 > 5 then
        { zoomMode := false, zoomFrames := s.zoomFrames, zoomReleaseFrames := 0,
          zoomState := none }
      else
        { zoomMode := true, zoomFrames := s.zoomFrames,
          zoomReleaseFrames := s.zoomReleaseFrames + 1, zoomState := s.zoomState } := by
  simp [zoomLatchStep, hz, hh]

theorem zoomLatchStep_blocked {s : EngineState} {nim mtd : ℚ}
    (hz : s.zoomMode = false) (hs : s.scrollMode = true) :
    zoomLatchStep s nim mtd =
      { zoomMode := false, zoomFrames := 0, zoomReleaseFrames := s.zoomReleaseFrames,
        zoomState := s.zoomState } := by
  simp [zoomLatchStep, hz, hs]

theorem scrollLatchStep_hold {s : EngineState} {zm : Bool} {nim mtd : ℚ}
    (hs : s.scrollMode = true) (hh : nim < 0.3 ∧ mtd > 0.28) :
    scrollLatchStep s zm nim mtd =
      { scrollMode := true, scrollFrames := s.scrollFrames, scrollReleaseFrames := 0,
        scrollAnchor := s.scrollAnchor } := by
  simp [scrollLatchStep, hs, hh.1, hh.2]

theorem scrollLatchStep_release {s : EngineState} {zm : Bool} {nim mtd : ℚ}
    (hs : s.scrollMode = true) (hh : ¬(nim < 0.3 ∧ mtd > 0.28)) :
    scrollLatchStep s zm nim mtd =
      if s.scrollReleaseFrames + 1 > 5 then
        { scrollMode := false, scrollFrames := s.scrollFrames, scrollReleaseFrames := 0,
          scrollAnchor := none }
      else
        { scrollMode := true, scrollFrames := s.scrollFrames,
          scrollReleaseFrames := s.scrollReleaseFrames + 1,
          scrollAnchor := s.scrollAnchor } := by
  simp [scrollLatchStep, hs, hh]

theorem scrollLatchStep_blocked {s : EngineState} {nim mtd : ℚ}
    (hs : s.scrollMode = false) :
    scrollLatchStep s true nim mtd =
      { scrollMode := false, scrollFrames := 0,
        scrollReleaseFrames := s.scrollReleaseFrames,
        scrollAnchor := s.scrollAnchor } := by
  simp [scrollLatchStep, hs]

theorem step_landmarksNeutral (dist : Point → Point → ℚ) (ht : Point → Option String)
    (now : ℚ) (s : EngineState) :
    step dist ht now s (some landmarksNeutral) = stepFull dist ht now s handNeutral := rfl

theorem stepFull_zoom_release_frame {dist : Point → Point → ℚ}
    {ht : Point → Option String} {now : ℚ} {s : EngineState} {h : Hand}
    {s' : EngineState} {ev : List GestureEvent}
    (hstep : stepFull dist ht now s h = some (s', ev))
    (hz : s.zoomMode = true) (hs : s.scrollMode = false)
    (hh : ¬(h.middleThumbDistance dist < 0.34 ∧ h.indexMiddleDistance dist > 0.2))
    (hk : s.zoomReleaseFrames + 1 ≤ 5) :
    s'.zoomMode = true ∧ s'.scrollMode = false ∧
    s'.zoomReleaseFrames = s.zoomReleaseFrames + 1 ∧ s'.tiles = s.tiles := by
  simp only [stepFull] at hstep
  split at hstep
  · exact absurd hstep (by simp)
  · rw [Option.some_inj] at hstep
    obtain ⟨h1, -⟩ := Prod.mk.injEq .. ▸ hstep
    subst h1
    have hc : ¬(s.zoomReleaseFrames + 1 > 5) := by omega
    simp only [zoomLatchStep_release hz hh, if_neg hc]
    refine ⟨by simp [scrollLatchStep_blocked hs], by simp, by simp, ?_⟩
    cases s.activeTile <;> simp [dragTrigger]

/-! ### Claim theorems -/

theorem stepFull_mutex {dist : Point → Point → ℚ} {ht : Point → Option String}
    {now : ℚ} {s : EngineState} {h : Hand} {s' : EngineState} {ev : List GestureEvent}
    (hstep : stepFull dist ht now s h = some (s', ev)) :
    (s'.scrollMode && s'.zoomMode) = false := by
  simp only [stepFull] at hstep
  split at hstep
  · exact absurd hstep (by simp)
  · rw [Option.some_inj] at hstep
    obtain ⟨h1, -⟩ := Prod.mk.injEq .. ▸ hstep
    subst h1
    by_cases hz :
        (zoomLatchStep s (h.indexMiddleDistance dist) (h.middleThumbDistance dist)).zoomMode
          = true
    · simp [hz]
    · simp only [Bool.not_eq_true] at hz
      simp [hz]

theorem step_mutex {dist : Point → Point → ℚ} {ht : Point → Option String}
    {now : ℚ} {s : EngineState} {f : Option Landmarks} {s' : EngineState}
    {ev : List GestureEvent}
    (hinv : (s.scrollMode && s.zoomMode) = false)
    (hstep : step dist ht now s f = some (s', ev)) :
    (s'.scrollMode && s'.zoomMode) = false := by
  cases f with
  | none =>
    simp only [step, Option.some_inj] at hstep
    obtain ⟨h1, -⟩ := Prod.mk.injEq .. ▸ hstep
    subst h1
    rfl
  | some lm =>
    simp only [step] at hstep
    split at hstep
    · split at hstep
      · exact stepFull_mutex hstep
      · exact absurd hstep (by simp)
    · rw [Option.some_inj] at hstep
      obtain ⟨h1, -⟩ := Prod.mk.injEq .. ▸ hstep
      subst h1
      exact hinv

theorem run_mutex {dist : Point → Point → ℚ} {ht : Point → Option String} :
    ∀ (frames : List (ℚ × Option Landmarks)) (s : EngineState),
      (s.scrollMode && s.zoomMode) = false →
      ((run dist ht s frames).scrollMode && (run dist ht s frames).zoomMode) = false := by
  intro frames
  induction frames with
  | nil => intro s hs; exact hs
  | cons fr rest ih =>
    intro s hs
    obtain ⟨now, f⟩ := fr
    simp only [run]
    split
    · rename_i s' ev hstep
      exact ih s' (step_mutex hs hstep)
    · exact ih s hs

/-- C1: over every sequence of frames processed from the initial state, the
scroll mode lock and the zoom mode lock are never simultaneously active:
each latch may only begin arming while the other is inactive (lines 420 and
442), and each mode's effect block forces the other lock off (lines 483 and
510), so mutual exclusion holds after every frame. -/
theorem scroll_zoom_mutual_exclusion (dist : Point → Point → ℚ)
    (hitTest : Point → Option String) (frames : List (ℚ × Option Landmarks)) :
    ((run dist hitTest initialState frames).scrollMode
      && (run dist hitTest initialState frames).zoomMode) = false :=
  run_mutex frames initialState rfl

/-- C2: a frame that reports no hand performs the full engine reset — both
mode locks false, every frame counter (pinch, scroll, zoom, both release
counters, drag) zero, both anchors `none`, the dwell target and the
previous-point memory cleared, and the externally observed mode `idle` —
and after the reset a single frame can never arm a mode again (the 3-frame
count must restart), so tracking regain re-arms rather than resumes. -/
theorem noHand_full_reset (dist : Point → Point → ℚ) (hitTest : Point → Option String)
    (now : ℚ) (s : EngineState) :
    step dist hitTest now s none = some (resetState s, []) ∧
    (resetState s).scrollMode = false ∧
    (resetState s).zoomMode = false ∧
    (resetState s).pinchFrames = 0 ∧
    (resetState s).scrollFrames = 0 ∧
    (resetState s).zoomFrames = 0 ∧
    (resetState s).scrollReleaseFrames = 0 ∧
    (resetState s).zoomReleaseFrames = 0 ∧
    (resetState s).dragFrames = 0 ∧
    (resetState s).scrollAnchor = none ∧
    (resetState s).zoomState = none ∧
    (resetState s).dwellId = none ∧
    (resetState s).dwellStartedAt = 0 ∧
    (resetState s).previousPoint = none ∧
    (resetState s).dragTarget = none ∧
    (resetState s).pinchState = false ∧
    (resetState s).gestureMode = GestureMode.idle ∧
    ∀ (now2 : ℚ) (h : Hand),
      (stepFull dist hitTest now2 (resetState s) h).map
          (fun r => (r.1.scrollMode, r.1.zoomMode)) = some (false, false) := by
  refine ⟨rfl, rfl, rfl, rfl, rfl, rfl, rfl, rfl, rfl, rfl, rfl, rfl, rfl, rfl, rfl, rfl, rfl,
    fun now2 h => ?_⟩
  exact stepFull_modes_off rfl rfl rfl rfl rfl

/-- C10: for every call to `reorderTiles`, the result is a permutation of
the prior tile list (in particular the same length and multiset); when
`fromId = toId` or either id is absent from the list, the list is returned
unchanged; no tile is duplicated or lost. -/
theorem reorderTiles_permutes (fromId toId : String) (current : List Tile) :
    (reorderTiles fromId toId current).Perm current ∧
    (reorderTiles fromId toId current).length = current.length ∧
    (fromId = toId → reorderTiles fromId toId current = current) ∧
    ((∀ t ∈ current, t.id ≠ fromId) → reorderTiles fromId toId current = current) ∧
    ((∀ t ∈ current, t.id ≠ toId) → reorderTiles fromId toId current = current) := by
  have hperm : (reorderTiles fromId toId current).Perm current := by
    unfold reorderTiles
    split
    · exact List.Perm.refl _
    · split
      · rename_i fromIndex toIndex hfrom hto
        split
        · rename_i moved hmoved
          have hfi : fromIndex < current.length :=
            (List.findIdx?_eq_some_iff_findIdx_eq.mp hfrom).1
          have hti : toIndex < current.length :=
            (List.findIdx?_eq_some_iff_findIdx_eq.mp hto).1
          have hlen : (current.eraseIdx fromIndex).length = current.length - 1 :=
            List.length_eraseIdx_of_lt hfi
          have hle : toIndex ≤ (current.eraseIdx fromIndex).length := by omega
          exact (insertIdx_perm_cons toIndex _ moved hle).trans
            (cons_eraseIdx_perm current fromIndex moved hmoved)
        · exact List.Perm.refl _
      · exact List.Perm.refl _
  refine ⟨hperm, hperm.length_eq, fun he => ?_, fun hnf => ?_, fun hnt => ?_⟩
  · unfold reorderTiles
    simp [he]
  · have hnone : current.findIdx? (fun t => t.id == fromId) = none :=
      List.findIdx?_eq_none_iff.mpr fun t ht => beq_eq_false_iff_ne.mpr (hnf t ht)
    unfold reorderTiles
    split
    · rfl
    · split
      · rename_i hfrom _
        rw [hnone] at hfrom
        exact absurd hfrom (by simp)
      · rfl
  · have hnone : current.findIdx? (fun t => t.id == toId) = none :=
      List.findIdx?_eq_none_iff.mpr fun t ht => beq_eq_false_iff_ne.mpr (hnt t ht)
    unfold reorderTiles
    split
    · rfl
    · split
      · rename_i _ hto
        rw [hnone] at hto
        exact absurd hto (by simp)
      · rfl

/-- Witness for C10: `reorderTiles` applied at concrete inputs, with each
degenerate case discharged concretely. -/
theorem reorderTiles_permutes_witness :
    (reorderTiles "mail" "tasks" INITIAL_TILES).Perm INITIAL_TILES ∧
    reorderTiles "mail" "mail" INITIAL_TILES = INITIAL_TILES ∧
    reorderTiles "ghost" "tasks" INITIAL_TILES = INITIAL_TILES := by
  refine ⟨(reorderTiles_permutes "mail" "tasks" INITIAL_TILES).1,
    (reorderTiles_permutes "mail" "mail" INITIAL_TILES).2.2.1 rfl,
    (reorderTiles_permutes "ghost" "tasks" INITIAL_TILES).2.2.2.1 ?_⟩
  intro t ht
  simp only [INITIAL_TILES, List.mem_cons, List.not_mem_nil] at ht
  rcases ht with h | h | h | h | h | h | h | h | h | h | h | h | h <;>
    first
      | (subst h; simp)
      | exact absurd h (by simp)

/-- C9 (amended): a frame that reports a hand but is missing the index tip
or the thumb tip is a strict no-op (line 367 returns before any engine
state is written and no event is emitted); but a frame missing one of the
four palm landmarks dereferenced on line 381 (wrist, index base, middle
base, pinky base) faults instead of no-opping, and a missing middle tip
does not skip processing at all (lines 385-386 substitute distance 1). -/
theorem landmark_guard (dist : Point → Point → ℚ) (hitTest : Point → Option String)
    (now : ℚ) (s : EngineState) (lm : Landmarks) :
    ((lm.indexTip = none ∨ lm.thumbTip = none) →
      step dist hitTest now s (some lm) = some (s, [])) ∧
    (∀ it tt, lm.indexTip = some it → lm.thumbTip = some tt →
      (lm.wrist = none ∨ lm.indexBase = none ∨ lm.middleBase = none ∨ lm.pinkyBase = none) →
      step dist hitTest now s (some lm) = none) := by
  constructor
  · rintro (h | h) <;> cases hit : lm.indexTip <;> simp_all [step]
  · intro it tt hit htt hmiss
    rcases hmiss with h | h | h | h <;>
      cases hw : lm.wrist <;> cases hib : lm.indexBase <;>
      cases hmb : lm.middleBase <;> cases hpb : lm.pinkyBase <;>
      simp_all [step]

/-- Witness for C9: the no-op branch at a frame missing the index tip, and
the fault branch at a frame missing the wrist. -/
theorem landmark_guard_witness :
    step axisDist hitTestNone 16 initialState (some landmarksNoIndexTip)
        = some (initialState, []) ∧
    step axisDist hitTestNone 16 initialState (some landmarksNoWrist) = none :=
  ⟨(landmark_guard axisDist hitTestNone 16 initialState landmarksNoIndexTip).1 (Or.inl rfl),
   (landmark_guard axisDist hitTestNone 16 initialState landmarksNoWrist).2
      { x := 1/2, y := 3/5 } { x := 1/2, y := 1/10 } rfl rfl (Or.inl rfl)⟩

/-- Counterexample for C9 as stated: a frame missing the middle tip (index
12) is not a no-op — the step still runs, sets the hand-visible flag and
writes the previous-point memory, so the prior engine state is not kept. -/
theorem landmark_guard_cx :
    (step axisDist hitTestNone 16 initialState (some landmarksNoMiddle)).map
        (fun r => (r.1.handVisible, r.1.previousPoint.isSome)) = some (true, true) ∧
    initialState.handVisible = false ∧ initialState.previousPoint.isSome = false := by
  refine ⟨?_, rfl, rfl⟩
  simp [step, stepFull, swipePhase, initialState, landmarksNoMiddle]

/-- C4 (amended): while a mode is active, a frame whose hold signal is
true resets that mode's release counter to 0 and keeps the mode active;
the mode transitions back to inactive exactly when the hold signal has
been false on 6 consecutive frames — the counter is incremented and the
mode drops only once the counter exceeds 5 (line 415 / line 437), so 5
consecutive hold-false frames leave the mode active. -/
theorem mode_release_counter (dist : Point → Point → ℚ) (hitTest : Point → Option String)
    (now : ℚ) (s : EngineState) (h : Hand) (s' : EngineState) (ev : List GestureEvent)
    (hstep : stepFull dist hitTest now s h = some (s', ev)) :
    (s.zoomMode = true → s.scrollMode = false →
      ((h.middleThumbDistance dist < 0.34 ∧ h.indexMiddleDistance dist > 0.2) →
        s'.zoomMode = true ∧ s'.zoomReleaseFrames = 0) ∧
      (¬(h.middleThumbDistance dist < 0.34 ∧ h.indexMiddleDistance dist > 0.2) →
        (s.zoomReleaseFrames + 1 > 5 → s'.zoomMode = false ∧ s'.zoomReleaseFrames = 0) ∧
        (s.zoomReleaseFrames + 1 ≤ 5 →
          s'.zoomMode = true ∧ s'.zoomReleaseFrames = s.zoomReleaseFrames + 1))) ∧
    (s.scrollMode = true → s.zoomMode = false →
      ((h.indexMiddleDistance dist < 0.3 ∧ h.middleThumbDistance dist > 0.28) →
        s'.scrollMode = true ∧ s'.scrollReleaseFrames = 0) ∧
      (¬(h.indexMiddleDistance dist < 0.3 ∧ h.middleThumbDistance dist > 0.28) →
        (s.scrollReleaseFrames + 1 > 5 →
          s'.scrollMode = false ∧ s'.scrollReleaseFrames = 0) ∧
        (s.scrollReleaseFrames + 1 ≤ 5 →
          s'.scrollMode = true ∧ s'.scrollReleaseFrames = s.scrollReleaseFrames + 1))) := by
  simp only [stepFull] at hstep
  split at hstep
  · exact absurd hstep (by simp)
  · rw [Option.some_inj] at hstep
    obtain ⟨h1, -⟩ := Prod.mk.injEq .. ▸ hstep
    subst h1
    constructor
    · intro hz hs
      constructor
      · intro hh
        simp [zoomLatchStep_hold hz hh, scrollLatchStep_blocked hs]
      · intro hh
        rw [zoomLatchStep_release hz hh]
        by_cases hc : s.zoomReleaseFrames + 1 > 5
        · rw [if_pos hc]
          constructor
          · intro _
            simp
          · intro hc2
            omega
        · rw [if_neg hc]
          constructor
          · intro hc2
            omega
          · intro _
            simp [scrollLatchStep_blocked hs]
    · intro hss hzz
      rw [zoomLatchStep_blocked hzz hss]
      constructor
      · intro hh
        simp [scrollLatchStep_hold hss hh]
      · intro hh
        rw [scrollLatchStep_release hss hh]
        by_cases hc : s.scrollReleaseFrames + 1 > 5
        · rw [if_pos hc]
          constructor
          · intro _
            simp
          · intro hc2
            omega
        · rw [if_neg hc]
          constructor
          · intro hc2
            omega
          · intro _
            simp

/-- Witness for C4: with zoom active, release counter 0 and a hold-false
frame, the mode stays active and the counter becomes 1. -/
theorem mode_release_counter_witness :
    ¬(Hand.middleThumbDistance axisDist handNeutral < 0.34
        ∧ Hand.indexMiddleDistance axisDist handNeutral > 0.2) ∧
    ((stepFull axisDist hitTestNone 0 stateZoomRelease handNeutral).getD
        (initialState, [])).1.zoomMode = true ∧
    ((stepFull axisDist hitTestNone 0 stateZoomRelease handNeutral).getD
        (initialState, [])).1.zoomReleaseFrames = 1 := by
  have hh : ¬(Hand.middleThumbDistance axisDist handNeutral < 0.34
      ∧ Hand.indexMiddleDistance axisDist handNeutral > 0.2) := by
    norm_num [Hand.middleThumbDistance, Hand.indexMiddleDistance, Hand.palmScale,
      axisDist, handNeutral, max_def, abs_of_nonneg, abs_of_nonpos]
  have hsome : (stepFull axisDist hitTestNone 0 stateZoomRelease handNeutral).isSome
      = true := stepFull_isSome (by simp [stateZoomRelease, initialState, INITIAL_TILES])
  have hstep := (eq_some_getD (initialState, []) hsome).trans
    (congrArg some Prod.mk.eta.symm)
  have hthm := mode_release_counter axisDist hitTestNone 0 stateZoomRelease handNeutral
    _ _ hstep
  have hcase := ((hthm.1 rfl rfl).2 hh).2 (by norm_num [stateZoomRelease, initialState])
  exact ⟨hh, hcase.1, hcase.2⟩

/-- Counterexample for C4 as stated: starting zoom-active with release
counter 0, five consecutive frames whose zoom hold signal is false leave
zoom mode still active (with counter 5), so the mode does not transition
to inactive after 5 consecutive hold-false frames. -/
theorem mode_release_counter_cx :
    (run axisDist hitTestNone stateZoomRelease framesRelease5).zoomMode = true ∧
    (run axisDist hitTestNone stateZoomRelease framesRelease5).zoomReleaseFrames = 5 ∧
    ¬(Hand.middleThumbDistance axisDist handNeutral < 0.34
        ∧ Hand.indexMiddleDistance axisDist handNeutral > 0.2) := by
  have hh : ¬(Hand.middleThumbDistance axisDist handNeutral < 0.34
      ∧ Hand.indexMiddleDistance axisDist handNeutral > 0.2) := by
    norm_num [Hand.middleThumbDistance, Hand.indexMiddleDistance, Hand.palmScale,
      axisDist, handNeutral, max_def, abs_of_nonneg, abs_of_nonpos]
  have peel : ∀ (s : EngineState) (now : ℚ), s.zoomMode = true → s.scrollMode = false →
      s.zoomReleaseFrames + 1 ≤ 5 → s.tiles = INITIAL_TILES →
      ∃ r : EngineState × List GestureEvent,
        step axisDist hitTestNone now s (some landmarksNeutral) = some r ∧
        r.1.zoomMode = true ∧ r.1.scrollMode = false ∧
        r.1.zoomReleaseFrames = s.zoomReleaseFrames + 1 ∧ r.1.tiles = INITIAL_TILES := by
    intro s now hz hs hk htl
    have hns : s.tiles ≠ [] := by rw [htl]; simp [INITIAL_TILES]
    have hsome : (stepFull axisDist hitTestNone now s handNeutral).isSome = true :=
      stepFull_isSome hns
    obtain ⟨⟨s', ev⟩, hr⟩ := Option.isSome_iff_exists.mp hsome
    have hfields := stepFull_zoom_release_frame hr hz hs hh hk
    exact ⟨(s', ev), by rw [step_landmarksNeutral]; exact hr, hfields.1, hfields.2.1,
      hfields.2.2.1, by rw [hfields.2.2.2, htl]⟩
  have h0 : stateZoomRelease.zoomReleaseFrames = 0 := rfl
  obtain ⟨r1, h1, hz1, hs1, hr1, ht1⟩ := peel stateZoomRelease 0 rfl rfl (by omega) rfl
  obtain ⟨r2, h2, hz2, hs2, hr2, ht2⟩ := peel r1.1 20 hz1 hs1 (by omega) ht1
  obtain ⟨r3, h3, hz3, hs3, hr3, ht3⟩ := peel r2.1 40 hz2 hs2 (by omega) ht2
  obtain ⟨r4, h4, hz4, hs4, hr4, ht4⟩ := peel r3.1 60 hz3 hs3 (by omega) ht3
  obtain ⟨r5, h5, hz5, hs5, hr5, ht5⟩ := peel r4.1 80 hz4 hs4 (by omega) ht4
  have hrun : run axisDist hitTestNone stateZoomRelease framesRelease5 = r5.1 := by
    simp only [framesRelease5, run, h1, h2, h3, h4, h5]
  rw [hrun]
  refine ⟨hz5, ?_, hh⟩
  omega


theorem zoomLatchStep_no_start {s : EngineState} {nim mtd : ℚ}
    (hz : s.zoomMode = false) (hns : ¬(mtd < 0.24 ∧ nim > 0.25)) :
    zoomLatchStep s nim mtd =
      { zoomMode := false, zoomFrames := 0, zoomReleaseFrames := s.zoomReleaseFrames,
        zoomState := s.zoomState } := by
  simp [zoomLatchStep, hz, hns]

theorem scrollLatchStep_no_start {s : EngineState} {zm : Bool} {nim mtd : ℚ}
    (hs : s.scrollMode = false) (hns : ¬(nim < 0.22 ∧ mtd > 0.34)) :
    scrollLatchStep s zm nim mtd =
      { scrollMode := false, scrollFrames := 0,
        scrollReleaseFrames := s.scrollReleaseFrames,
        scrollAnchor := s.scrollAnchor } := by
  simp [scrollLatchStep, hs, hns]

theorem dragTrigger_inactive {ht : Point → Option String} {c : Point}
    {at0 dt1 : Option String} {now cd : ℚ} {tiles : List Tile} :
    dragTrigger ht c at0 0 dt1 now cd tiles =
      { dragActive := false, tiles := tiles, dragTarget := dt1,
        dragSwapCooldown := cd, events := [] } := by
  cases at0 <;> simp [dragTrigger]

theorem dwellPhase_of_none {hov : Option String} {now dsa : ℚ}
    {at0 : Option String} {cc : ℚ} :
    (dwellPhase hov now none dsa at0 cc).events = [] ∧
    (dwellPhase hov now none dsa at0 cc).activeTile = at0 ∧
    (dwellPhase hov now none dsa at0 cc).clickCooldown = cc := by
  cases hov <;> simp [dwellPhase]

theorem dwellPhase_events_no_click {hov : Option String} {now dsa : ℚ}
    {did at0 : Option String} {cc : ℚ} {tid : String} :
    GestureEvent.click tid ∉ (dwellPhase hov now did dsa at0 cc).events := by
  cases hov with
  | none => simp [dwellPhase]
  | some hv =>
    simp only [dwellPhase]
    split_ifs <;> simp

theorem rawCursor_bounds (h : Hand) :
    0 ≤ (rawCursor h).x ∧ (rawCursor h).x ≤ 1 ∧
    0 ≤ (rawCursor h).y ∧ (rawCursor h).y ≤ 1 :=
  ⟨left_le_clamp (by norm_num), clamp_le_right _ _ _,
   left_le_clamp (by norm_num), clamp_le_right _ _ _⟩

theorem stableCursorOf_bounds {dist : Point → Point → ℚ} {now : ℚ}
    {prev : Option PrevPoint} {h : Hand}
    (hprev : ∀ p, prev = some p → 0 ≤ p.x ∧ p.x ≤ 1 ∧ 0 ≤ p.y ∧ p.y ≤ 1) :
    0 ≤ (stableCursorOf dist now prev h).x ∧ (stableCursorOf dist now prev h).x ≤ 1 ∧
    0 ≤ (stableCursorOf dist now prev h).y ∧ (stableCursorOf dist now prev h).y ≤ 1 := by
  obtain ⟨hr1, hr2, hr3, hr4⟩ := rawCursor_bounds h
  cases prev with
  | none => exact ⟨hr1, hr2, hr3, hr4⟩
  | some p =>
    obtain ⟨hp1, hp2, hp3, hp4⟩ := hprev p rfl
    have ha1 : (0.22 : ℚ) ≤ smoothOf dist now (some p) h :=
      left_le_clamp (by norm_num)
    have ha2 : smoothOf dist now (some p) h ≤ 0.56 := clamp_le_right _ _ _
    simp only [stableCursorOf]
    refine ⟨?_, ?_, ?_, ?_⟩ <;>
      nlinarith [mul_nonneg hp1 (by linarith : (0:ℚ) ≤ 1 - smoothOf dist now (some p) h),
        mul_nonneg hr1 (by linarith : (0:ℚ) ≤ smoothOf dist now (some p) h),
        mul_nonneg hp3 (by linarith : (0:ℚ) ≤ 1 - smoothOf dist now (some p) h),
        mul_nonneg hr3 (by linarith : (0:ℚ) ≤ smoothOf dist now (some p) h),
        mul_le_mul_of_nonneg_right hp2
          (by linarith : (0:ℚ) ≤ 1 - smoothOf dist now (some p) h),
        mul_le_mul_of_nonneg_right hr2
          (by linarith : (0:ℚ) ≤ smoothOf dist now (some p) h),
        mul_le_mul_of_nonneg_right hp4
          (by linarith : (0:ℚ) ≤ 1 - smoothOf dist now (some p) h),
        mul_le_mul_of_nonneg_right hr4
          (by linarith : (0:ℚ) ≤ smoothOf dist now (some p) h)]

theorem stepFull_zoom_frame {dist : Point → Point → ℚ} {ht : Point → Option String}
    {now : ℚ} {s : EngineState} {h : Hand} {s' : EngineState}
    {ev : List GestureEvent}
    (hstep : stepFull dist ht now s h = some (s', ev))
    (hz : s.zoomMode = true) (hs : s.scrollMode = false)
    (hhold : h.middleThumbDistance dist < 0.34 ∧ h.indexMiddleDistance dist > 0.2) :
    s'.zoomLevel = (zoomApply (h.middleThumbDistance dist) s.zoomLevel s.zoomState).zoomLevel ∧
    s'.zoomState = (zoomApply (h.middleThumbDistance dist) s.zoomLevel s.zoomState).zoomState ∧
    s'.gestureMode = GestureMode.zoom ∧
    s'.pinchState = false ∧ s'.pinching = false ∧ s'.pinchFrames = 0 ∧
    s'.dragFrames = 0 ∧ s'.dragTarget = none ∧ s'.dragging = false ∧
    s'.dwellProgress = 0 ∧ s'.dwellId = s.dwellId ∧
    s'.dwellStartedAt = s.dwellStartedAt := by
  simp only [stepFull] at hstep
  split at hstep
  · exact absurd hstep (by simp)
  · rename_i sw heq
    rw [Option.some_inj] at hstep
    obtain ⟨h1, -⟩ := Prod.mk.injEq .. ▸ hstep
    subst h1
    simp only [zoomLatchStep_hold hz hhold, scrollLatchStep_blocked hs] at heq
    simp [swipePhase] at heq
    subst heq
    simp only [zoomLatchStep_hold hz hhold, scrollLatchStep_blocked hs]
    refine ⟨?_, ?_, ?_, ?_, ?_, ?_, ?_, ?_, ?_, ?_, ?_, ?_⟩ <;>
      simp [dragTrigger_inactive]

theorem stepFull_scroll_frame {dist : Point → Point → ℚ} {ht : Point → Option String}
    {now : ℚ} {s : EngineState} {h : Hand} {s' : EngineState}
    {ev : List GestureEvent} {m : Point}
    (hstep : stepFull dist ht now s h = some (s', ev))
    (hss : s.scrollMode = true) (hzz : s.zoomMode = false)
    (hmid : h.middleTip = some m)
    (hhold : h.indexMiddleDistance dist < 0.3 ∧ h.middleThumbDistance dist > 0.28) :
    s'.gestureMode = GestureMode.scroll ∧
    s'.pinchState = false ∧ s'.pinching = false ∧ s'.pinchFrames = 0 ∧
    s'.dragFrames = 0 ∧ s'.dragTarget = none ∧ s'.dragging = false ∧
    s'.dwellProgress = 0 ∧ s'.dwellId = s.dwellId ∧
    s'.dwellStartedAt = s.dwellStartedAt := by
  simp only [stepFull] at hstep
  split at hstep
  · exact absurd hstep (by simp)
  · rename_i sw heq
    rw [Option.some_inj] at hstep
    obtain ⟨h1, -⟩ := Prod.mk.injEq .. ▸ hstep
    subst h1
    simp only [zoomLatchStep_blocked hzz hss, scrollLatchStep_hold hss hhold] at heq
    simp [swipePhase] at heq
    subst heq
    simp only [zoomLatchStep_blocked hzz hss, scrollLatchStep_hold hss hhold, hmid]
    refine ⟨?_, ?_, ?_, ?_, ?_, ?_, ?_, ?_, ?_, ?_⟩ <;>
      simp [dragTrigger_inactive]

/-- C3 (amended): on a frame processed while zoom mode is active with an
existing anchor, with delta = current middleThumbDist − anchorDist: if
`|delta| > 0.0012` the zoom level becomes
`clamp(level + delta * 3.6, 0.45, 2.6)` — an additive update of the
current level, not a multiplication by `(1 + delta * 3.6)` — and if
`|delta| ≤ 0.0012` the zoom level is unchanged; the anchor is then
low-pass filtered to `anchor * 0.45 + current * 0.55`. -/
theorem zoom_delta_update (dist : Point → Point → ℚ) (hitTest : Point → Option String)
    (now : ℚ) (s : EngineState) (h : Hand) (s' : EngineState)
    (ev : List GestureEvent) (lastDistance : ℚ)
    (hz : s.zoomMode = true) (hs : s.scrollMode = false)
    (hanchor : s.zoomState = some lastDistance)
    (hhold : h.middleThumbDistance dist < 0.34 ∧ h.indexMiddleDistance dist > 0.2)
    (hstep : stepFull dist hitTest now s h = some (s', ev)) :
    (|h.middleThumbDistance dist - lastDistance| > 0.0012 →
      s'.zoomLevel = clamp (s.zoomLevel
        + (h.middleThumbDistance dist - lastDistance) * 3.6) 0.45 2.6) ∧
    (|h.middleThumbDistance dist - lastDistance| ≤ 0.0012 →
      s'.zoomLevel = s.zoomLevel) ∧
    s'.zoomState = some (lastDistance * 0.45 + h.middleThumbDistance dist * 0.55) := by
  obtain ⟨hlev, hst, -⟩ := stepFull_zoom_frame hstep hz hs hhold
  rw [hanchor] at hlev hst
  refine ⟨fun hd => ?_, fun hd => ?_, by rw [hst]; simp [zoomApply]⟩
  · rw [hlev]
    simp [zoomApply, if_pos hd]
  · rw [hlev]
    simp [zoomApply, if_neg (not_lt.mpr hd)]

/-- Witness for C3 (amended): zoom active with anchor 1/2 and level 2, a
frame with middle-thumb distance 1/4 updates the level additively. -/
theorem zoom_delta_update_witness :
    |Hand.middleThumbDistance axisDist handZoomHold - 1/2| > 0.0012 ∧
    ((stepFull axisDist hitTestNone 1000 stateZoomActive handZoomHold).getD
        (initialState, [])).1.zoomLevel
      = clamp (stateZoomActive.zoomLevel
          + (Hand.middleThumbDistance axisDist handZoomHold - 1/2) * 3.6) 0.45 2.6 := by
  have hmtd : Hand.middleThumbDistance axisDist handZoomHold = 1/4 := by
    norm_num [Hand.middleThumbDistance, Hand.palmScale, axisDist, handZoomHold,
      max_def, abs_of_nonneg, abs_of_nonpos]
  have hnim : Hand.indexMiddleDistance axisDist handZoomHold = 1 := by
    norm_num [Hand.indexMiddleDistance, Hand.palmScale, axisDist, handZoomHold,
      max_def, abs_of_nonneg, abs_of_nonpos]
  have hd : |Hand.middleThumbDistance axisDist handZoomHold - 1/2| > 0.0012 := by
    rw [hmtd]; norm_num [abs_of_nonpos]
  have hhold : Hand.middleThumbDistance axisDist handZoomHold < 0.34
      ∧ Hand.indexMiddleDistance axisDist handZoomHold > 0.2 := by
    rw [hmtd, hnim]; norm_num
  have hsome : (stepFull axisDist hitTestNone 1000 stateZoomActive handZoomHold).isSome
      = true := stepFull_isSome (by simp [stateZoomActive, initialState, INITIAL_TILES])
  have hstep := (eq_some_getD (initialState, []) hsome).trans
    (congrArg some Prod.mk.eta.symm)
  exact ⟨hd, (zoom_delta_update axisDist hitTestNone 1000 stateZoomActive handZoomHold
    _ _ (1/2) rfl rfl rfl hhold hstep).1 hd⟩

/-- Counterexample for C3 as stated: at zoom level 2 with anchor 1/2 and a
frame with middle-thumb distance 1/4 (delta = −1/4), the code produces
zoom level `clamp(2 + (−1/4)·3.6) = 1.1`, while multiplying by
`(1 + delta·3.6)` as claimed would give `clamp(2 · (1 − 0.9)) = 0.45`. -/
theorem zoom_delta_update_cx :
    ((stepFull axisDist hitTestNone 1000 stateZoomActive handZoomHold).map
        (fun r => r.1.zoomLevel)) = some (11/10) ∧
    clamp (stateZoomActive.zoomLevel
        * (1 + (Hand.middleThumbDistance axisDist handZoomHold - 1/2) * 3.6)) 0.45 2.6
      = 9/20 ∧
    |Hand.middleThumbDistance axisDist handZoomHold - 1/2| > 0.0012 ∧
    stateZoomActive.zoomState = some (1/2) ∧
    (11/10 : ℚ) ≠ 9/20 := by
  have hmtd : Hand.middleThumbDistance axisDist handZoomHold = 1/4 := by
    norm_num [Hand.middleThumbDistance, Hand.palmScale, axisDist, handZoomHold,
      max_def, abs_of_nonneg, abs_of_nonpos]
  have hnim : Hand.indexMiddleDistance axisDist handZoomHold = 1 := by
    norm_num [Hand.indexMiddleDistance, Hand.palmScale, axisDist, handZoomHold,
      max_def, abs_of_nonneg, abs_of_nonpos]
  have hhold : Hand.middleThumbDistance axisDist handZoomHold < 0.34
      ∧ Hand.indexMiddleDistance axisDist handZoomHold > 0.2 := by
    rw [hmtd, hnim]; norm_num
  have hsome : (stepFull axisDist hitTestNone 1000 stateZoomActive handZoomHold).isSome
      = true := stepFull_isSome (by simp [stateZoomActive, initialState, INITIAL_TILES])
  have hstep := (eq_some_getD (initialState, []) hsome).trans
    (congrArg some Prod.mk.eta.symm)
  obtain ⟨hlev, -⟩ := stepFull_zoom_frame hstep rfl rfl hhold
  refine ⟨?_, ?_, by rw [hmtd]; norm_num [abs_of_nonpos], rfl, by norm_num⟩
  · rw [hstep]
    rw [Option.map_some', hlev, hmtd]
    norm_num [zoomApply, stateZoomActive, initialState, clamp, max_def, min_def,
      abs_of_nonpos]
  · rw [hmtd]
    norm_num [stateZoomActive, initialState, clamp, max_def, min_def]

/-- C6 (amended): on every frame in which zoom mode (resp. scroll mode) is
active and holding, the in-progress pinch and drag state is explicitly
reset — pinch flag and counter cleared, drag counter and drag target
cleared — and the reported dwell progress is reset to 0, but the dwell
target tile and its start time are retained (`dwellRef` is not touched by
the mode branches), rather than cleared as claimed. -/
theorem mode_active_cancels (dist : Point → Point → ℚ) (hitTest : Point → Option String)
    (now : ℚ) (s : EngineState) (h : Hand) (s' : EngineState) (ev : List GestureEvent)
    (hstep : stepFull dist hitTest now s h = some (s', ev)) :
    (s.zoomMode = true → s.scrollMode = false →
      (h.middleThumbDistance dist < 0.34 ∧ h.indexMiddleDistance dist > 0.2) →
      s'.pinchState = false ∧ s'.pinching = false ∧ s'.pinchFrames = 0 ∧
      s'.dragFrames = 0 ∧ s'.dragTarget = none ∧ s'.dragging = false ∧
      s'.dwellProgress = 0 ∧ s'.dwellId = s.dwellId ∧
      s'.dwellStartedAt = s.dwellStartedAt) ∧
    (s.scrollMode = true → s.zoomMode = false → ∀ m, h.middleTip = some m →
      (h.indexMiddleDistance dist < 0.3 ∧ h.middleThumbDistance dist > 0.28) →
      s'.pinchState = false ∧ s'.pinching = false ∧ s'.pinchFrames = 0 ∧
      s'.dragFrames = 0 ∧ s'.dragTarget = none ∧ s'.dragging = false ∧
      s'.dwellProgress = 0 ∧ s'.dwellId = s.dwellId ∧
      s'.dwellStartedAt = s.dwellStartedAt) := by
  constructor
  · intro hz hs hhold
    obtain ⟨-, -, -, c1, c2, c3, c4, c5, c6, c7, c8, c9⟩ :=
      stepFull_zoom_frame hstep hz hs hhold
    exact ⟨c1, c2, c3, c4, c5, c6, c7, c8, c9⟩
  · intro hss hzz m hmid hhold
    obtain ⟨-, c1, c2, c3, c4, c5, c6, c7, c8, c9⟩ :=
      stepFull_scroll_frame hstep hss hzz hmid hhold
    exact ⟨c1, c2, c3, c4, c5, c6, c7, c8, c9⟩

/-- Witness for C6 (amended): a zoom-hold frame on a state carrying a live
pinch, drag and dwell clears the pinch and drag state and the dwell
progress while retaining the dwell target. -/
theorem mode_active_cancels_witness :
    ((stepFull axisDist hitTestNone 1000 statePinchDragDwell handZoomHold).getD
        (initialState, [])).1.pinchState = false ∧
    ((stepFull axisDist hitTestNone 1000 statePinchDragDwell handZoomHold).getD
        (initialState, [])).1.pinchFrames = 0 ∧
    ((stepFull axisDist hitTestNone 1000 statePinchDragDwell handZoomHold).getD
        (initialState, [])).1.dragFrames = 0 ∧
    ((stepFull axisDist hitTestNone 1000 statePinchDragDwell handZoomHold).getD
        (initialState, [])).1.dragTarget = none ∧
    ((stepFull axisDist hitTestNone 1000 statePinchDragDwell handZoomHold).getD
        (initialState, [])).1.dwellProgress = 0 ∧
    ((stepFull axisDist hitTestNone 1000 statePinchDragDwell handZoomHold).getD
        (initialState, [])).1.dwellId = some "notes" := by
  have hmtd : Hand.middleThumbDistance axisDist handZoomHold = 1/4 := by
    norm_num [Hand.middleThumbDistance, Hand.palmScale, axisDist, handZoomHold,
      max_def, abs_of_nonneg, abs_of_nonpos]
  have hnim : Hand.indexMiddleDistance axisDist handZoomHold = 1 := by
    norm_num [Hand.indexMiddleDistance, Hand.palmScale, axisDist, handZoomHold,
      max_def, abs_of_nonneg, abs_of_nonpos]
  have hhold : Hand.middleThumbDistance axisDist handZoomHold < 0.34
      ∧ Hand.indexMiddleDistance axisDist handZoomHold > 0.2 := by
    rw [hmtd, hnim]; norm_num
  have hsome : (stepFull axisDist hitTestNone 1000 statePinchDragDwell handZoomHold).isSome
      = true := stepFull_isSome (by simp [statePinchDragDwell, initialState, INITIAL_TILES])
  have hstep := (eq_some_getD (initialState, []) hsome).trans
    (congrArg some Prod.mk.eta.symm)
  obtain ⟨c1, c2, c3, c4, c5, c6, c7, c8, c9⟩ :=
    (mode_active_cancels axisDist hitTestNone 1000 statePinchDragDwell handZoomHold
      _ _ hstep).1 rfl rfl hhold
  exact ⟨c1, c3, c4, c5, c7, c8⟩

/-- Counterexample for C6 as stated: on a zoom-active frame the dwell
target tile and its start time survive unchanged (`some "mail"`, 100) —
the dwell state is not reset, only the displayed progress is. -/
theorem mode_active_cancels_cx :
    ((stepFull axisDist hitTestNone 1000 stateDwellZoom handZoomHold).map
        (fun r => (r.1.gestureMode, r.1.dwellId, r.1.dwellStartedAt)))
      = some (GestureMode.zoom, some "mail", 100) ∧
    stateDwellZoom.dwellId = some "mail" ∧ stateDwellZoom.dwellStartedAt = 100 := by
  have hmtd : Hand.middleThumbDistance axisDist handZoomHold = 1/4 := by
    norm_num [Hand.middleThumbDistance, Hand.palmScale, axisDist, handZoomHold,
      max_def, abs_of_nonneg, abs_of_nonpos]
  have hnim : Hand.indexMiddleDistance axisDist handZoomHold = 1 := by
    norm_num [Hand.indexMiddleDistance, Hand.palmScale, axisDist, handZoomHold,
      max_def, abs_of_nonneg, abs_of_nonpos]
  have hhold : Hand.middleThumbDistance axisDist handZoomHold < 0.34
      ∧ Hand.indexMiddleDistance axisDist handZoomHold > 0.2 := by
    rw [hmtd, hnim]; norm_num
  have hsome : (stepFull axisDist hitTestNone 1000 stateDwellZoom handZoomHold).isSome
      = true := stepFull_isSome (by simp [stateDwellZoom, initialState, INITIAL_TILES])
  have hstep := (eq_some_getD (initialState, []) hsome).trans
    (congrArg some Prod.mk.eta.symm)
  obtain ⟨-, -, g1, -, -, -, -, -, -, -, g2, g3⟩ :=
    stepFull_zoom_frame hstep rfl rfl hhold
  rw [hstep, Option.map_some']
  exact ⟨by rw [g1, g2, g3]; rfl, rfl, rfl⟩

/-- C7: on every processed frame, the emitted smoothed cursor lies in the
unit square: the raw mirrored fingertip is clamped per coordinate, and the
output is either that raw point (no previous point) or the convex
combination `previous·(1−α) + raw·α` with `α = clamp(0.22 + v·1.8, 0.22,
0.56) ∈ [0, 1]`, which stays in [0,1]² whenever the previous cursor is;
the previous-point memory is updated to the emitted cursor. -/
theorem cursor_in_unit_square (dist : Point → Point → ℚ) (hitTest : Point → Option String)
    (now : ℚ) (s : EngineState) (h : Hand) (s' : EngineState) (ev : List GestureEvent)
    (hprev : ∀ p, s.previousPoint = some p →
      0 ≤ p.x ∧ p.x ≤ 1 ∧ 0 ≤ p.y ∧ p.y ≤ 1)
    (hstep : stepFull dist hitTest now s h = some (s', ev)) :
    s'.cursor = stableCursorOf dist now s.previousPoint h ∧
    (0 ≤ s'.cursor.x ∧ s'.cursor.x ≤ 1 ∧ 0 ≤ s'.cursor.y ∧ s'.cursor.y ≤ 1) ∧
    s'.previousPoint = some { x := s'.cursor.x, y := s'.cursor.y, t := now } := by
  have hc : s'.cursor = stableCursorOf dist now s.previousPoint h ∧
      s'.previousPoint = some ⟨(stableCursorOf dist now s.previousPoint h).x,
        (stableCursorOf dist now s.previousPoint h).y, now⟩ := by
    simp only [stepFull] at hstep
    split at hstep
    · exact absurd hstep (by simp)
    · rw [Option.some_inj] at hstep
      obtain ⟨h1, -⟩ := Prod.mk.injEq .. ▸ hstep
      subst h1
      exact ⟨rfl, rfl⟩
  refine ⟨hc.1, ?_, by rw [hc.2, hc.1]⟩
  rw [hc.1]
  exact stableCursorOf_bounds hprev

/-- Witness for C7: a concrete frame with a previous point in the unit
square keeps the smoothed cursor inside the unit square. -/
theorem cursor_in_unit_square_witness :
    0 ≤ ((stepFull axisDist hitTestNone 1000 statePrev handZoomHold).getD
        (initialState, [])).1.cursor.x ∧
    ((stepFull axisDist hitTestNone 1000 statePrev handZoomHold).getD
        (initialState, [])).1.cursor.x ≤ 1 ∧
    0 ≤ ((stepFull axisDist hitTestNone 1000 statePrev handZoomHold).getD
        (initialState, [])).1.cursor.y ∧
    ((stepFull axisDist hitTestNone 1000 statePrev handZoomHold).getD
        (initialState, [])).1.cursor.y ≤ 1 := by
  have hsome : (stepFull axisDist hitTestNone 1000 statePrev handZoomHold).isSome
      = true := stepFull_isSome (by simp [statePrev, initialState, INITIAL_TILES])
  have hstep := (eq_some_getD (initialState, []) hsome).trans
    (congrArg some Prod.mk.eta.symm)
  have hprev : ∀ p, statePrev.previousPoint = some p →
      0 ≤ p.x ∧ p.x ≤ 1 ∧ 0 ≤ p.y ∧ p.y ≤ 1 := by
    intro p hp
    have : ({ x := 1/2, y := 1/10, t := 900 } : PrevPoint) = p := Option.some.inj hp
    rw [← this]
    norm_num
  exact (cursor_in_unit_square axisDist hitTestNone 1000 statePrev handZoomHold
    _ _ hprev hstep).2.1


theorem dwellPhase_events_count_click {hov : Option String} {now dsa : ℚ}
    {did at0 : Option String} {cc : ℚ} {tid : String} :
    ((dwellPhase hov now did dsa at0 cc).events).count (GestureEvent.click tid) = 0 :=
  List.count_eq_zero.mpr dwellPhase_events_no_click

/-- C5: on a pinch-end transition (pinch held in the previous frame,
released this frame) with scroll and zoom inactive and not arming, and a
tile under the cursor, a Click on that tile is emitted if and only if the
pinch duration `now - pinchStartTime` is below 280 ms and more than 420 ms
have elapsed since the last click; when it fires, exactly one Click is
emitted. -/
theorem pinch_end_click_iff (dist : Point → Point → ℚ) (hitTest : Point → Option String)
    (now : ℚ) (s : EngineState) (h : Hand) (s' : EngineState) (ev : List GestureEvent)
    (tid : String)
    (hwas : s.pinchState = true)
    (hz : s.zoomMode = false) (hs : s.scrollMode = false)
    (hnz : ¬(h.middleThumbDistance dist < 0.24 ∧ h.indexMiddleDistance dist > 0.25))
    (hns : ¬(h.indexMiddleDistance dist < 0.22 ∧ h.middleThumbDistance dist > 0.34))
    (hrel : ¬(h.pinchDistance dist < 0.42))
    (hhit : hitTest (stableCursorOf dist now s.previousPoint h) = some tid)
    (hstep : stepFull dist hitTest now s h = some (s', ev)) :
    (GestureEvent.click tid ∈ ev ↔
      (now - s.pinchStartTime < 280 ∧ now - s.clickCooldown > 420)) ∧
    ((now - s.pinchStartTime < 280 ∧ now - s.clickCooldown > 420) →
      ev.count (GestureEvent.click tid) = 1) := by
  simp only [stepFull] at hstep
  split at hstep
  · exact absurd hstep (by simp)
  · rename_i sw heq
    rw [Option.some_inj] at hstep
    obtain ⟨-, h2⟩ := Prod.mk.injEq .. ▸ hstep
    subst h2
    by_cases hA : now - s.pinchStartTime < 280 <;>
      by_cases hB : now - s.clickCooldown > 420 <;>
      cases hf : sw.fired <;>
      constructor <;>
      simp [zoomLatchStep_no_start hz hnz, scrollLatchStep_no_start hs hns, hwas, hrel,
        hhit, hA, hB, hf, dragTrigger_inactive, dwellPhase_events_no_click,
        dwellPhase_events_count_click, List.count_append]


/-- Witness for C5: a 200 ms pinch released with no click in the last
420 ms emits a Click on the hovered tile, and a 300 ms pinch emits none. -/
theorem pinch_end_click_iff_witness :
    GestureEvent.click "mail" ∈
      ((stepFull axisDist hitTestMail 1000 statePinch handNeutral).getD
        (initialState, [])).2 ∧
    GestureEvent.click "mail" ∉
      ((stepFull axisDist hitTestMail 1000 statePinchLong handNeutral).getD
        (initialState, [])).2 := by
  have hmtd : Hand.middleThumbDistance axisDist handNeutral = 3/2 := by
    norm_num [Hand.middleThumbDistance, Hand.palmScale, axisDist, handNeutral,
      max_def, abs_of_nonneg, abs_of_nonpos]
  have hnim : Hand.indexMiddleDistance axisDist handNeutral = 1/4 := by
    norm_num [Hand.indexMiddleDistance, Hand.palmScale, axisDist, handNeutral,
      max_def, abs_of_nonneg, abs_of_nonpos]
  have hpd : Hand.pinchDistance axisDist handNeutral = 5/4 := by
    norm_num [Hand.pinchDistance, Hand.palmScale, axisDist, handNeutral,
      max_def, abs_of_nonneg, abs_of_nonpos]
  have hnz : ¬(Hand.middleThumbDistance axisDist handNeutral < 0.24
      ∧ Hand.indexMiddleDistance axisDist handNeutral > 0.25) := by
    rw [hmtd, hnim]; norm_num
  have hns : ¬(Hand.indexMiddleDistance axisDist handNeutral < 0.22
      ∧ Hand.middleThumbDistance axisDist handNeutral > 0.34) := by
    rw [hnim]; norm_num
  have hrel : ¬(Hand.pinchDistance axisDist handNeutral < 0.42) := by
    rw [hpd]; norm_num
  constructor
  · have hsome : (stepFull axisDist hitTestMail 1000 statePinch handNeutral).isSome
        = true := stepFull_isSome (by simp [statePinch, initialState, INITIAL_TILES])
    have hstep := (eq_some_getD (initialState, []) hsome).trans
      (congrArg some Prod.mk.eta.symm)
    exact (pinch_end_click_iff axisDist hitTestMail 1000 statePinch handNeutral _ _
      "mail" rfl rfl rfl hnz hns hrel rfl hstep).1.mpr
      ⟨by norm_num [statePinch, initialState], by norm_num [statePinch, initialState]⟩
  · have hsome : (stepFull axisDist hitTestMail 1000 statePinchLong handNeutral).isSome
        = true := stepFull_isSome (by simp [statePinchLong, initialState, INITIAL_TILES])
    have hstep := (eq_some_getD (initialState, []) hsome).trans
      (congrArg some Prod.mk.eta.symm)
    intro hmem
    exact absurd ((pinch_end_click_iff axisDist hitTestMail 1000 statePinchLong
      handNeutral _ _ "mail" rfl rfl rfl hnz hns hrel rfl hstep).1.mp hmem).1
      (by norm_num [statePinchLong, initialState])


theorem triggerSwipeSelect_char_right {tiles : List Tile} {aid : String} {i : ℕ}
    (hidx : tiles.findIdx? (fun t => t.id == aid) = some i) :
    triggerSwipeSelect tiles (some aid) SwipeDir.right =
      (tiles[(((i : ℤ) + 1 + (tiles.length : ℤ)) % (tiles.length : ℤ)).toNat]?).map
        (fun t => some t.id) := by
  simp only [triggerSwipeSelect, hidx]
  rw [if_neg (by omega : ¬((i : ℤ) = -1))]
  cases hx : tiles[(((i : ℤ) + 1 + (tiles.length : ℤ)) % (tiles.length : ℤ)).toNat]? <;>
    simp [hx]

theorem triggerSwipeSelect_char_left {tiles : List Tile} {aid : String} {i : ℕ}
    (hidx : tiles.findIdx? (fun t => t.id == aid) = some i) :
    triggerSwipeSelect tiles (some aid) SwipeDir.left =
      (tiles[(((i : ℤ) + -1 + (tiles.length : ℤ)) % (tiles.length : ℤ)).toNat]?).map
        (fun t => some t.id) := by
  simp only [triggerSwipeSelect, hidx]
  rw [if_neg (by omega : ¬((i : ℤ) = -1))]
  cases hx : tiles[(((i : ℤ) + -1 + (tiles.length : ℤ)) % (tiles.length : ℤ)).toNat]? <;>
    simp [hx]

/-- C8: in the default pointer sub-mode (no pinch held or starting, no
scroll, no zoom, no arming) with a previous point: a swipe fires exactly
when the frame gap is below 135 ms, the smoothed-cursor horizontal
displacement exceeds 0.22 in absolute value, and more than 650 ms have
passed since the last swipe; it emits `SwipeSelect(right)` when dx > 0 and
`SwipeSelect(left)` otherwise, advances the active tile index circularly
by ±1 modulo the tile count, and resets the swipe cooldown to now;
otherwise no swipe is emitted and the cooldown and active tile persist. -/
theorem swipe_select_spec (dist : Point → Point → ℚ) (hitTest : Point → Option String)
    (now : ℚ) (s : EngineState) (h : Hand) (s' : EngineState) (ev : List GestureEvent)
    (p : PrevPoint)
    (hprev : s.previousPoint = some p)
    (hpst : s.pinchState = false)
    (hz : s.zoomMode = false) (hs : s.scrollMode = false)
    (hnz : ¬(h.middleThumbDistance dist < 0.24 ∧ h.indexMiddleDistance dist > 0.25))
    (hns : ¬(h.indexMiddleDistance dist < 0.22 ∧ h.middleThumbDistance dist > 0.34))
    (hnp : ¬(h.pinchDistance dist < 0.34))
    (hdw : s.dwellId = none)
    (hstep : stepFull dist hitTest now s h = some (s', ev)) :
    ((now - p.t < 135 ∧ |(stableCursorOf dist now (some p) h).x - p.x| > 0.22 ∧
        now - s.swipeCooldown > 650) →
      ev = [GestureEvent.swipeSelect
        (if (stableCursorOf dist now (some p) h).x - p.x > 0 then SwipeDir.right
         else SwipeDir.left)] ∧
      s'.swipeCooldown = now ∧ s'.swipePulse = s.swipePulse + 1 ∧
      (∀ (aid : String) (i : ℕ), s.activeTile = some aid →
        s.tiles.findIdx? (fun t => t.id == aid) = some i →
        s'.activeTile = (s.tiles[(((i : ℤ)
            + (if (stableCursorOf dist now (some p) h).x - p.x > 0 then 1 else -1)
            + (s.tiles.length : ℤ)) % (s.tiles.length : ℤ)).toNat]?).map
          (fun t => t.id))) ∧
    (¬(now - p.t < 135 ∧ |(stableCursorOf dist now (some p) h).x - p.x| > 0.22 ∧
        now - s.swipeCooldown > 650) →
      ev = [] ∧ s'.swipeCooldown = s.swipeCooldown ∧ s'.swipePulse = s.swipePulse ∧
      s'.activeTile = s.activeTile) := by
  simp only [stepFull] at hstep
  split at hstep
  · exact absurd hstep (by simp)
  · rename_i sw heq
    rw [Option.some_inj] at hstep
    obtain ⟨h1, h2⟩ := Prod.mk.injEq .. ▸ hstep
    subst h1
    subst h2
    constructor
    · intro hfire
      by_cases hdx : (stableCursorOf dist now (some p) h).x - p.x > 0
      · simp only [zoomLatchStep_no_start hz hnz, scrollLatchStep_no_start hs hns,
          hprev, hpst] at heq
        simp [hnp, hfire.1, hfire.2.1, hfire.2.2, hdx, swipePhase] at heq
        obtain ⟨a, hta, hsw⟩ := heq
        subst hsw
        refine ⟨?_, ?_, ?_, ?_⟩
        · simp [zoomLatchStep_no_start hz hnz, scrollLatchStep_no_start hs hns, hprev,
            hpst, hnp, hfire.1, hfire.2.1, hfire.2.2, hdx, hdw, dragTrigger_inactive,
            dwellPhase_of_none]
        · simp [zoomLatchStep_no_start hz hnz, scrollLatchStep_no_start hs hns, hprev,
            hpst, hnp, hfire.1, hfire.2.1, hfire.2.2, hdx, hdw, dragTrigger_inactive,
            dwellPhase_of_none]
        · simp [zoomLatchStep_no_start hz hnz, scrollLatchStep_no_start hs hns, hprev,
            hpst, hnp, hfire.1, hfire.2.1, hfire.2.2, hdx, hdw, dragTrigger_inactive,
            dwellPhase_of_none]
        · intro aid i hat hidx
          rw [hat] at hta
          rw [triggerSwipeSelect_char_right hidx] at hta
          rw [if_pos hdx]
          cases hx : s.tiles[(((i : ℤ) + 1 + (s.tiles.length : ℤ))
              % (s.tiles.length : ℤ)).toNat]? with
          | none =>
            rw [hx] at hta
            simp at hta
          | some t =>
            rw [hx] at hta
            simp only [Option.map_some', Option.some_inj] at hta
            subst hta
            simp [zoomLatchStep_no_start hz hnz, scrollLatchStep_no_start hs hns, hprev,
              hpst, hnp, hfire.1, hfire.2.1, hfire.2.2, hdx, hdw, dragTrigger_inactive,
              dwellPhase_of_none]
      · simp only [zoomLatchStep_no_start hz hnz, scrollLatchStep_no_start hs hns,
          hprev, hpst] at heq
        simp [hnp, hfire.1, hfire.2.1, hfire.2.2, hdx, swipePhase] at heq
        obtain ⟨a, hta, hsw⟩ := heq
        subst hsw
        refine ⟨?_, ?_, ?_, ?_⟩
        · simp [zoomLatchStep_no_start hz hnz, scrollLatchStep_no_start hs hns, hprev,
            hpst, hnp, hfire.1, hfire.2.1, hfire.2.2, hdx, hdw, dragTrigger_inactive,
            dwellPhase_of_none]
        · simp [zoomLatchStep_no_start hz hnz, scrollLatchStep_no_start hs hns, hprev,
            hpst, hnp, hfire.1, hfire.2.1, hfire.2.2, hdx, hdw, dragTrigger_inactive,
            dwellPhase_of_none]
        · simp [zoomLatchStep_no_start hz hnz, scrollLatchStep_no_start hs hns, hprev,
            hpst, hnp, hfire.1, hfire.2.1, hfire.2.2, hdx, hdw, dragTrigger_inactive,
            dwellPhase_of_none]
        · intro aid i hat hidx
          rw [hat] at hta
          rw [triggerSwipeSelect_char_left hidx] at hta
          rw [if_neg hdx]
          cases hx : s.tiles[(((i : ℤ) + -1 + (s.tiles.length : ℤ))
              % (s.tiles.length : ℤ)).toNat]? with
          | none =>
            rw [hx] at hta
            simp at hta
          | some t =>
            rw [hx] at hta
            simp only [Option.map_some', Option.some_inj] at hta
            subst hta
            simp [zoomLatchStep_no_start hz hnz, scrollLatchStep_no_start hs hns, hprev,
              hpst, hnp, hfire.1, hfire.2.1, hfire.2.2, hdx, hdw, dragTrigger_inactive,
              dwellPhase_of_none]
    · intro hfire
      simp only [zoomLatchStep_no_start hz hnz, scrollLatchStep_no_start hs hns, hprev,
        hpst] at heq
      simp [hnp, hfire, swipePhase] at heq
      subst heq
      refine ⟨?_, ?_, ?_, ?_⟩ <;>
        simp [zoomLatchStep_no_start hz hnz, scrollLatchStep_no_start hs hns, hprev,
          hpst, hnp, hfire, hdw, dragTrigger_inactive, dwellPhase_of_none]


/-- Witness for C8: two frames 1 ms apart with a 0.4984 smoothed-cursor
jump to the right and a cold swipe cooldown emit `SwipeSelect(right)` and
advance the active tile from `mail` (index 0) to `media` (index 1). -/
theorem swipe_select_spec_witness :
    ((stepFull axisDist hitTestNone 1000 stateSwipe handSwipe).getD
        (initialState, [])).2 = [GestureEvent.swipeSelect SwipeDir.right] ∧
    ((stepFull axisDist hitTestNone 1000 stateSwipe handSwipe).getD
        (initialState, [])).1.swipeCooldown = 1000 ∧
    ((stepFull axisDist hitTestNone 1000 stateSwipe handSwipe).getD
        (initialState, [])).1.swipePulse = stateSwipe.swipePulse + 1 ∧
    ((stepFull axisDist hitTestNone 1000 stateSwipe handSwipe).getD
        (initialState, [])).1.activeTile = some "media" := by
  have hmtd : Hand.middleThumbDistance axisDist handSwipe = 7/4 := by
    norm_num [Hand.middleThumbDistance, Hand.palmScale, axisDist, handSwipe,
      max_def, abs_of_nonneg, abs_of_nonpos]
  have hnim : Hand.indexMiddleDistance axisDist handSwipe = 1/2 := by
    norm_num [Hand.indexMiddleDistance, Hand.palmScale, axisDist, handSwipe,
      max_def, abs_of_nonneg, abs_of_nonpos]
  have hpd : Hand.pinchDistance axisDist handSwipe = 5/4 := by
    norm_num [Hand.pinchDistance, Hand.palmScale, axisDist, handSwipe,
      max_def, abs_of_nonneg, abs_of_nonpos]
  have hnz : ¬(Hand.middleThumbDistance axisDist handSwipe < 0.24
      ∧ Hand.indexMiddleDistance axisDist handSwipe > 0.25) := by
    rw [hmtd, hnim]; norm_num
  have hns : ¬(Hand.indexMiddleDistance axisDist handSwipe < 0.22
      ∧ Hand.middleThumbDistance axisDist handSwipe > 0.34) := by
    rw [hmtd, hnim]; norm_num
  have hnp : ¬(Hand.pinchDistance axisDist handSwipe < 0.34) := by
    rw [hpd]; norm_num
  have hstable : (stableCursorOf axisDist 1000
      (some ⟨1/10, 3/5, 999⟩) handSwipe).x = 374/625 := by
    norm_num [stableCursorOf, smoothOf, velocityOf, rawCursor, axisDist, handSwipe,
      clamp, max_def, min_def, abs_of_nonneg, abs_of_nonpos]
  have hdxpos : (stableCursorOf axisDist 1000
      (some ⟨1/10, 3/5, 999⟩) handSwipe).x - (⟨1/10, 3/5, 999⟩ : PrevPoint).x > 0 := by
    rw [hstable]; norm_num
  have hfire : (1000 : ℚ) - (⟨1/10, 3/5, 999⟩ : PrevPoint).t < 135 ∧
      |(stableCursorOf axisDist 1000 (some ⟨1/10, 3/5, 999⟩) handSwipe).x
        - (⟨1/10, 3/5, 999⟩ : PrevPoint).x| > 0.22 ∧
      (1000 : ℚ) - stateSwipe.swipeCooldown > 650 := by
    refine ⟨by norm_num, ?_, by norm_num [stateSwipe, initialState]⟩
    rw [hstable]
    norm_num [abs_of_nonneg]
  have hsome : (stepFull axisDist hitTestNone 1000 stateSwipe handSwipe).isSome
      = true := stepFull_isSome (by simp [stateSwipe, initialState, INITIAL_TILES])
  have hstep := (eq_some_getD (initialState, []) hsome).trans
    (congrArg some Prod.mk.eta.symm)
  have hidx : stateSwipe.tiles.findIdx? (fun t => t.id == "mail") = some 0 := by
    simp [stateSwipe, initialState, INITIAL_TILES, List.findIdx?_cons]
  obtain ⟨hev, hcd, hpu, hat⟩ := (swipe_select_spec axisDist hitTestNone 1000 stateSwipe
    handSwipe _ _ ⟨1/10, 3/5, 999⟩ rfl rfl rfl rfl hnz hns hnp rfl hstep).1 hfire
  refine ⟨?_, hcd, hpu, ?_⟩
  · rw [hev, if_pos hdxpos]
  · rw [hat "mail" 0 rfl hidx, if_pos hdxpos]
    norm_num [stateSwipe, initialState, INITIAL_TILES]

end GestureControl
